import Mathlib

/-!
# Verification of the stabilization feasibility core (`tools/stabilize_building.py`)

Shallow embedding of the decision core of `stabilize_building.py`:
per-frame motion transforms, the static-crop solver, the crop constraint
checks, the fill-budget planner, the motion-reliability classifier, the
config-header gate, and the top-level decision flow of `main`.

Python `float` arithmetic is modelled exactly over `ℚ` (all operations used by
the embedded code are `+ - * / abs max min floor ceil` and comparisons, which
are exact on the rational inputs considered); Python `int` is `ℤ`; Python
`math.sqrt` (used only by `compute_minimum_centered_crop`) has no exact
rational counterpart and is abstracted as an explicit function parameter.
Python's `//` on integers is floor division, i.e. `Int.fdiv`.
-/

namespace StabilizeBuilding

/-- One per-frame record of the motion path (`FrameTransform` in the spec;
a dict `{dx, dy, angle, zoom_percent, missing, is_reference}` in the code). -/
structure FrameTransform where
  dx : ℚ
  dy : ℚ
  angle : ℚ
  zoom_percent : ℚ
  missing : Bool
  is_reference : Bool
  deriving DecidableEq, Repr

/-- Crop rectangle `{x, y, w, h}` in integer source pixels. -/
structure CropRect where
  x : ℤ
  y : ℤ
  w : ℤ
  h : ℤ
  deriving DecidableEq, Repr

/-- `compute_valid_bbox(width, height, dx, dy)`: the valid pixel bbox after
applying the stabilizing translation, as `(left, top, right, bottom)`. -/
def compute_valid_bbox (width height : ℤ) (dx dy : ℚ) : ℚ × ℚ × ℚ × ℚ :=
  let shift_x := -dx
  let shift_y := -dy
  let left := max 0 shift_x
  let right := min (width : ℚ) ((width : ℚ) + shift_x)
  let top := max 0 shift_y
  let bottom := min (height : ℚ) ((height : ℚ) + shift_y)
  (left, top, right, bottom)

/-- Running intersection of per-frame valid bboxes, as tracked by the loop
variables `left, top, right, bottom` of `compute_static_crop`. -/
structure BBox where
  left : ℚ
  top : ℚ
  right : ℚ
  bottom : ℚ
  deriving DecidableEq, Repr

/-- One iteration of the loop in `compute_static_crop`: frames marked
`missing` are skipped, every other frame (the reference included) shrinks
the running intersection by its own valid bbox. -/
def cropStep (width height : ℤ) (bb : BBox) (item : FrameTransform) : BBox :=
  if item.missing then bb
  else
    let shift_x := -item.dx
    let shift_y := -item.dy
    { left := max bb.left (max 0 shift_x)
      top := max bb.top (max 0 shift_y)
      right := min bb.right (min (width : ℚ) ((width : ℚ) + shift_x))
      bottom := min bb.bottom (min (height : ℚ) ((height : ℚ) + shift_y)) }

/-- The loop of `compute_static_crop`: intersect the valid bboxes of all
non-missing frames, starting from the full source extent. -/
def intersectBBoxes (width height : ℤ) (transforms : List FrameTransform) : BBox :=
  transforms.foldl (cropStep width height) ⟨0, 0, (width : ℚ), (height : ℚ)⟩

/-- `x0 = int(math.ceil(left))` of `compute_static_crop`. -/
def rawCropX0 (width height : ℤ) (transforms : List FrameTransform) : ℤ :=
  ⌈(intersectBBoxes width height transforms).left⌉

/-- `y0 = int(math.ceil(top))` of `compute_static_crop`. -/
def rawCropY0 (width height : ℤ) (transforms : List FrameTransform) : ℤ :=
  ⌈(intersectBBoxes width height transforms).top⌉

/-- `x1 = int(math.floor(right))` of `compute_static_crop`. -/
def rawCropX1 (width height : ℤ) (transforms : List FrameTransform) : ℤ :=
  ⌊(intersectBBoxes width height transforms).right⌋

/-- `y1 = int(math.floor(bottom))` of `compute_static_crop`. -/
def rawCropY1 (width height : ℤ) (transforms : List FrameTransform) : ℤ :=
  ⌊(intersectBBoxes width height transforms).bottom⌋

/-- The aspect-matching step of `compute_static_crop`: from the raw
rectangle `raw_w × raw_h` choose `(crop_w, crop_h)`; if the raw rectangle is
wider than the desired aspect, keep the height and floor the width, else
keep the width and floor the height. -/
def aspectFit (raw_w raw_h : ℤ) (aspect : ℚ) : ℤ × ℤ :=
  if (raw_w : ℚ) / (raw_h : ℚ) > aspect then
    (⌊(raw_h : ℚ) * aspect⌋, raw_h)
  else
    (raw_w, ⌊(raw_w : ℚ) / aspect⌋)

/-- `compute_static_crop(width, height, transforms)`: intersect all valid
bboxes, round inward to integers, fit the source aspect ratio, and center
the result inside the raw rectangle. Returns the all-zero rectangle when
infeasible. -/
def compute_static_crop (width height : ℤ) (transforms : List FrameTransform) : CropRect :=
  let x0 := rawCropX0 width height transforms
  let y0 := rawCropY0 width height transforms
  let x1 := rawCropX1 width height transforms
  let y1 := rawCropY1 width height transforms
  let raw_w := x1 - x0
  let raw_h := y1 - y0
  if raw_w ≤ 0 ∨ raw_h ≤ 0 then ⟨0, 0, 0, 0⟩
  else
    let desired_aspect : ℚ := (width : ℚ) / (height : ℚ)
    let wh := aspectFit raw_w raw_h desired_aspect
    let crop_w := wh.1
    let crop_h := wh.2
    if crop_w ≤ 0 ∨ crop_h ≤ 0 then ⟨0, 0, 0, 0⟩
    else
      let crop_x := x0 + (raw_w - crop_w).fdiv 2
      let crop_y := y0 + (raw_h - crop_h).fdiv 2
      ⟨crop_x, crop_y, crop_w, crop_h⟩

/-- `crop_constraints_ok(width, height, crop_rect, min_area_ratio,
min_height_px, center_safe_margin)`: validate the solver's rectangle,
returning `(ok, reasons)`. -/
def crop_constraints_ok (width height : ℤ) (crop_rect : CropRect)
    (min_area_ratio : ℚ) (min_height_px : ℤ) (center_safe_margin : ℚ) :
    Bool × List String :=
  let cw := crop_rect.w
  let ch := crop_rect.h
  let cx := crop_rect.x
  let cy := crop_rect.y
  if cw ≤ 0 ∨ ch ≤ 0 then (false, ["crop rectangle is empty"])
  else if cw > width ∨ ch > height then (false, ["crop rectangle exceeds frame bounds"])
  else if cx < 0 ∨ cy < 0 ∨ cx + cw > width ∨ cy + ch > height then
    (false, ["crop rectangle is out of bounds"])
  else
    let area_ratio : ℚ := ((cw : ℚ) * (ch : ℚ)) / ((width : ℚ) * (height : ℚ))
    let safe_left : ℚ := (width : ℚ) * center_safe_margin
    let safe_top : ℚ := (height : ℚ) * center_safe_margin
    let safe_right : ℚ := (width : ℚ) - safe_left
    let safe_bottom : ℚ := (height : ℚ) - safe_top
    let reasons : List String :=
      (if area_ratio < min_area_ratio then ["crop area below min_area_ratio"] else [])
      ++ (if ch < min_height_px then ["crop height below min_height_px"] else [])
      ++ (if (cx : ℚ) > safe_left ∨ (cy : ℚ) > safe_top then
            ["crop does not include center safe region (left/top)"] else [])
      ++ (if ((cx + cw : ℤ) : ℚ) < safe_right ∨ ((cy + ch : ℤ) : ℚ) < safe_bottom then
            ["crop does not include center safe region (right/bottom)"] else [])
    (reasons.isEmpty, reasons)

/-- `crop_basic_constraints_ok(width, height, crop_rect, min_area_ratio,
min_height_px)`: the same check without the center-safe-region clauses. -/
def crop_basic_constraints_ok (width height : ℤ) (crop_rect : CropRect)
    (min_area_ratio : ℚ) (min_height_px : ℤ) : Bool × List String :=
  let cw := crop_rect.w
  let ch := crop_rect.h
  let cx := crop_rect.x
  let cy := crop_rect.y
  if cw ≤ 0 ∨ ch ≤ 0 then (false, ["crop rectangle is empty"])
  else if cw > width ∨ ch > height then (false, ["crop rectangle exceeds frame bounds"])
  else if cx < 0 ∨ cy < 0 ∨ cx + cw > width ∨ cy + ch > height then
    (false, ["crop rectangle is out of bounds"])
  else
    let area_ratio : ℚ := ((cw : ℚ) * (ch : ℚ)) / ((width : ℚ) * (height : ℚ))
    let reasons : List String :=
      (if area_ratio < min_area_ratio then ["crop area below min_area_ratio"] else [])
      ++ (if ch < min_height_px then ["crop height below min_height_px"] else [])
    (reasons.isEmpty, reasons)

/-- `compute_minimum_centered_crop(width, height, min_area_ratio,
min_height_px)`: smallest centered rectangle meeting the basic constraints.
`sqrtFn` stands for Python's `math.sqrt`, which has no exact rational
embedding; every theorem below quantifies over it. -/
def compute_minimum_centered_crop (sqrtFn : ℚ → ℚ) (width height : ℤ)
    (min_area_ratio : ℚ) (min_height_px : ℤ) : CropRect :=
  let aspect : ℚ := (width : ℚ) / (height : ℚ)
  let required_h0 : ℚ := (min_height_px : ℚ)
  let required_area : ℚ := min_area_ratio * (width : ℚ) * (height : ℚ)
  let required_h : ℚ :=
    if required_area > 0 then max required_h0 (sqrtFn (required_area / aspect))
    else required_h0
  if required_h > (height : ℚ) then ⟨0, 0, 0, 0⟩
  else
    let required_w : ℚ := required_h * aspect
    if required_w > (width : ℚ) then ⟨0, 0, 0, 0⟩
    else
      let crop_w : ℤ := ⌈required_w⌉
      let crop_h : ℤ := ⌈required_h⌉
      if crop_w ≤ 0 ∨ crop_h ≤ 0 then ⟨0, 0, 0, 0⟩
      else if crop_w > width ∨ crop_h > height then ⟨0, 0, 0, 0⟩
      else ⟨(width - crop_w).fdiv 2, (height - crop_h).fdiv 2, crop_w, crop_h⟩

/-- Loop state of `compute_fill_budget`. -/
structure FillLoopState where
  total_frames : ℕ
  frames_with_fill : ℕ
  max_fill_ratio : ℚ
  max_gap_px : ℚ
  current_run : ℕ
  max_run : ℕ
  deriving DecidableEq, Repr

/-- One iteration of the loop in `compute_fill_budget`: frames marked
`missing` or `is_reference` are skipped; every other frame contributes its
fill ratio, fill-run accounting and one-sided gaps. -/
def fillStep (width height : ℤ) (cx cy cw ch : ℚ) (st : FillLoopState)
    (item : FrameTransform) : FillLoopState :=
  if item.missing ∨ item.is_reference then st
  else
    let area := cw * ch
    let bbox := compute_valid_bbox width height item.dx item.dy
    let left := bbox.1
    let top := bbox.2.1
    let right := bbox.2.2.1
    let bottom := bbox.2.2.2
    let ix0 := max cx left
    let iy0 := max cy top
    let ix1 := min (cx + cw) right
    let iy1 := min (cy + ch) bottom
    let iw := max 0 (ix1 - ix0)
    let ih := max 0 (iy1 - iy0)
    let inter_area := iw * ih
    let fill_area := max 0 (area - inter_area)
    let fill_ratio := if area > 0 then fill_area / area else 1
    let needs_fill := fill_area > 0
    let gap_left := max 0 (cx - left)
    let gap_right := max 0 ((cx + cw) - right)
    let gap_top := max 0 (cy - top)
    let gap_bottom := max 0 ((cy + ch) - bottom)
    { total_frames := st.total_frames + 1
      frames_with_fill := if needs_fill then st.frames_with_fill + 1 else st.frames_with_fill
      max_fill_ratio := if fill_ratio > st.max_fill_ratio then fill_ratio else st.max_fill_ratio
      max_gap_px := max st.max_gap_px (max gap_left (max gap_right (max gap_top gap_bottom)))
      current_run := if needs_fill then st.current_run + 1 else 0
      max_run :=
        if needs_fill ∧ st.current_run + 1 > st.max_run then st.current_run + 1 else st.max_run }

/-- The statistics dict returned by `compute_fill_budget` on a valid crop. -/
structure FillStats where
  pass : Bool
  reasons : List String
  total_frames : ℕ
  frames_with_fill : ℕ
  frames_ratio : ℚ
  max_consecutive_frames : ℕ
  max_fill_area_ratio : ℚ
  max_gap_px : ℚ
  deriving DecidableEq, Repr

/-- Result of `compute_fill_budget`: the code returns
`{"pass": False, "reason": "invalid crop rectangle"}` for a degenerate crop,
and the full statistics dict otherwise. -/
inductive FillBudgetResult where
  | invalidCrop
  | stats (s : FillStats)
  deriving DecidableEq, Repr

/-- `compute_fill_budget(transforms, width, height, crop_rect,
max_area_ratio, max_frames_ratio, max_consecutive_frames)`. -/
def compute_fill_budget (transforms : List FrameTransform) (width height : ℤ)
    (crop_rect : CropRect) (max_area_ratio max_frames_ratio : ℚ)
    (max_consecutive_frames : ℤ) : FillBudgetResult :=
  let cx : ℚ := (crop_rect.x : ℚ)
  let cy : ℚ := (crop_rect.y : ℚ)
  let cw : ℚ := (crop_rect.w : ℚ)
  let ch : ℚ := (crop_rect.h : ℚ)
  if cw ≤ 0 ∨ ch ≤ 0 then .invalidCrop
  else
    let st := transforms.foldl (fillStep width height cx cy cw ch) ⟨0, 0, 0, 0, 0, 0⟩
    let frames_ratio : ℚ :=
      if 0 < st.total_frames then (st.frames_with_fill : ℚ) / (st.total_frames : ℚ) else 1
    let r1 : Bool := decide (st.max_fill_ratio > max_area_ratio)
    let r2 : Bool := decide (frames_ratio > max_frames_ratio)
    let r3 : Bool := decide (max_consecutive_frames ≥ 0) &&
      decide ((st.max_run : ℤ) > max_consecutive_frames)
    let reasons : List String :=
      (if r1 then ["max_area_ratio exceeded"] else [])
      ++ (if r2 then ["max_frames_ratio exceeded"] else [])
      ++ (if r3 then ["max_consecutive_frames exceeded"] else [])
    .stats
      { pass := !(r1 || r2 || r3)
        reasons := reasons
        total_frames := st.total_frames
        frames_with_fill := st.frames_with_fill
        frames_ratio := frames_ratio
        max_consecutive_frames := st.max_run
        max_fill_area_ratio := st.max_fill_ratio
        max_gap_px := st.max_gap_px }

/-- `bool(result.get("pass"))` on a `compute_fill_budget` result: the
invalid-crop dict carries `pass: False`. -/
def FillBudgetResult.passFlag : FillBudgetResult → Bool
  | .invalidCrop => false
  | .stats s => s.pass

/-- `frames_ratio` field of a `compute_fill_budget` result (absent, hence
junk `0`, on the invalid-crop dict; never read there). -/
def FillBudgetResult.framesRatio : FillBudgetResult → ℚ
  | .invalidCrop => 0
  | .stats s => s.frames_ratio

/-- `max_fill_area_ratio` field (junk `0` on the invalid-crop dict). -/
def FillBudgetResult.maxFillAreaRatio : FillBudgetResult → ℚ
  | .invalidCrop => 0
  | .stats s => s.max_fill_area_ratio

/-- `max_consecutive_frames` field (junk `0` on the invalid-crop dict). -/
def FillBudgetResult.maxConsecutive : FillBudgetResult → ℕ
  | .invalidCrop => 0
  | .stats s => s.max_consecutive_frames

/-- `total_frames` field (junk `0` on the invalid-crop dict). -/
def FillBudgetResult.totalFrames : FillBudgetResult → ℕ
  | .invalidCrop => 0
  | .stats s => s.total_frames

/-- `median(values)`: sort and take the middle element (or the mean of the
two middle elements). Python's `sorted` is modelled by `insertionSort`,
which produces the same sorted list of rationals. The Python function
raises on an empty list; both callers (`mad` on guarded nonempty lists)
never pass one, and this embedding returns `0` there. -/
def median (values : List ℚ) : ℚ :=
  let items := values.insertionSort (· ≤ ·)
  let mid := items.length / 2
  if items.length % 2 = 1 then items.getD mid 0
  else (items.getD (mid - 1) 0 + items.getD mid 0) / 2

/-- `mad(values)`: median absolute deviation about the median. -/
def mad (values : List ℚ) : ℚ :=
  let center := median values
  median (values.map (fun v => |v - center|))

/-- `scale_ratio_from_zoom_percent(zoom_percent)`. -/
def scale_ratio_from_zoom_percent (zoom_percent : ℚ) : ℚ :=
  1 + zoom_percent / 100

/-- Rejection settings consumed by `motion_reliability_ok` (the
`rejection` dict built in `main` from the config). -/
structure RejectionSettings where
  max_missing_fraction : ℚ
  max_mad_fraction : ℚ
  max_scale_jump : ℚ
  max_abs_angle_rad : ℚ
  max_abs_zoom_percent : ℚ
  mode : String
  outlier_max_frames_ratio : ℚ
  outlier_max_consecutive_frames : ℤ
  deriving DecidableEq, Repr

/-- The dict produced by `_budget_stats` inside `motion_reliability_ok`. -/
structure BudgetStats where
  bad_frames : ℕ
  total_frames : ℕ
  bad_frames_ratio : ℚ
  max_consecutive_bad_frames : ℕ
  deriving DecidableEq, Repr

/-- One iteration of the `_budget_stats` loop: state is
`(bad_count, current_run, max_run)`. -/
def budgetLoop (bad : List ℕ) (st : ℕ × ℕ × ℕ) (idx : ℕ) : ℕ × ℕ × ℕ :=
  if bad.contains idx then
    let run := st.2.1 + 1
    (st.1 + 1, run, if run > st.2.2 then run else st.2.2)
  else (st.1, 0, st.2.2)

/-- `_budget_stats(bad_set)`: walk the usable indices in order, counting bad
frames and the longest consecutive bad run; the ratio falls back to `1.0`
when there are no usable frames. The Python bad set is modelled as a list
with membership lookup. -/
def budget_stats (usable_indices : List ℕ) (bad : List ℕ) : BudgetStats :=
  let st := usable_indices.foldl (budgetLoop bad) (0, 0, 0)
  { bad_frames := st.1
    total_frames := usable_indices.length
    bad_frames_ratio :=
      if 0 < usable_indices.length then (st.1 : ℚ) / (usable_indices.length : ℚ) else 1
    max_consecutive_bad_frames := st.2.2 }

/-- Frames with `not item.get("missing")` (the reference included), the
population of `dx_values`, `dy_values`, `angle_values`, `zoom_values`. -/
def validFrames (transforms : List FrameTransform) : List FrameTransform :=
  transforms.filter (fun t => !t.missing)

/-- Frames with `not item.get("is_reference")`, the denominator of
`missing_fraction`. -/
def nonReferenceFrames (transforms : List FrameTransform) : List FrameTransform :=
  transforms.filter (fun t => !t.is_reference)

/-- `missing_fraction`: missing over non-reference frames, `1.0` when there
are no non-reference frames. -/
def missingFraction (transforms : List FrameTransform) : ℚ :=
  let non_reference := nonReferenceFrames transforms
  let missing := (non_reference.filter (fun t => t.missing)).length
  if 0 < non_reference.length then (missing : ℚ) / (non_reference.length : ℚ) else 1

/-- `mad_tx_fraction = mad(dx_values) / width`. -/
def madTxFraction (width : ℤ) (transforms : List FrameTransform) : ℚ :=
  mad ((validFrames transforms).map (fun t => t.dx)) / (width : ℚ)

/-- `mad_ty_fraction = mad(dy_values) / height`. -/
def madTyFraction (height : ℤ) (transforms : List FrameTransform) : ℚ :=
  mad ((validFrames transforms).map (fun t => t.dy)) / (height : ℚ)

/-- `max_abs_angle`: largest `|angle|` over non-missing frames, `0` if none. -/
def maxAbsAngle (transforms : List FrameTransform) : ℚ :=
  ((validFrames transforms).map (fun t => |t.angle|)).foldl max 0

/-- `max_abs_zoom_percent`: largest `|zoom_percent|` over non-missing
frames, `0` if none. -/
def maxAbsZoom (transforms : List FrameTransform) : ℚ :=
  ((validFrames transforms).map (fun t => |t.zoom_percent|)).foldl max 0

/-- `(idx, item)` pairs of usable frames: neither missing nor the
reference (the population of `usable_indices`, `worst_angles`,
`worst_zooms`). -/
def usablePairs (transforms : List FrameTransform) : List (ℕ × FrameTransform) :=
  transforms.enum.filter (fun p => !p.2.missing && !p.2.is_reference)

/-- `usable_indices`. -/
def usableIndices (transforms : List FrameTransform) : List ℕ :=
  (usablePairs transforms).map (fun p => p.1)

/-- `worst_angles`: `(idx, abs(angle))` per usable frame. -/
def worstAngles (transforms : List FrameTransform) : List (ℕ × ℚ) :=
  (usablePairs transforms).map (fun p => (p.1, |p.2.angle|))

/-- `worst_zooms`: `(idx, abs(zoom_percent))` per usable frame. -/
def worstZooms (transforms : List FrameTransform) : List (ℕ × ℚ) :=
  (usablePairs transforms).map (fun p => (p.1, |p.2.zoom_percent|))

/-- `worst_scale_jumps`: over adjacent usable frames, `(idx1,
abs(s1/s0 - 1))`, skipping pairs with `s0 ≤ 0`. -/
def worstScaleJumps (transforms : List FrameTransform) : List (ℕ × ℚ) :=
  let usable := usablePairs transforms
  (usable.zip usable.tail).filterMap (fun q =>
    let s0 := scale_ratio_from_zoom_percent q.1.2.zoom_percent
    let s1 := scale_ratio_from_zoom_percent q.2.2.zoom_percent
    if s0 ≤ 0 then none else some (q.2.1, |s1 / s0 - 1|))

/-- `max_scale_jump`: largest recorded adjacent scale jump, `0` if none. -/
def maxScaleJump (transforms : List FrameTransform) : ℚ :=
  (worstScaleJumps transforms).foldl (fun m p => if p.2 > m then p.2 else m) 0

/-- `angle_bad`: usable indices whose `abs(angle)` exceeds the threshold. -/
def angleBad (transforms : List FrameTransform) (threshold : ℚ) : List ℕ :=
  ((worstAngles transforms).filter (fun p => p.2 > threshold)).map (fun p => p.1)

/-- `zoom_bad`: usable indices whose `abs(zoom_percent)` exceeds the
threshold. -/
def zoomBad (transforms : List FrameTransform) (threshold : ℚ) : List ℕ :=
  ((worstZooms transforms).filter (fun p => p.2 > threshold)).map (fun p => p.1)

/-- `scale_bad`: indices whose adjacent scale jump exceeds the threshold. -/
def scaleBad (transforms : List FrameTransform) (threshold : ℚ) : List ℕ :=
  ((worstScaleJumps transforms).filter (fun p => p.2 > threshold)).map (fun p => p.1)

/-- `angle_budget = _budget_stats(angle_bad)`. -/
def angleBudget (transforms : List FrameTransform) (rej : RejectionSettings) : BudgetStats :=
  budget_stats (usableIndices transforms) (angleBad transforms rej.max_abs_angle_rad)

/-- `zoom_budget = _budget_stats(zoom_bad)`. -/
def zoomBudget (transforms : List FrameTransform) (rej : RejectionSettings) : BudgetStats :=
  budget_stats (usableIndices transforms) (zoomBad transforms rej.max_abs_zoom_percent)

/-- `scale_budget = _budget_stats(scale_bad)`. -/
def scaleBudget (transforms : List FrameTransform) (rej : RejectionSettings) : BudgetStats :=
  budget_stats (usableIndices transforms) (scaleBad transforms rej.max_scale_jump)

/-- `combined_budget = _budget_stats(angle_bad | zoom_bad | scale_bad)`
(set union modelled by list concatenation under membership lookup). -/
def combinedBudget (transforms : List FrameTransform) (rej : RejectionSettings) : BudgetStats :=
  budget_stats (usableIndices transforms)
    (angleBad transforms rej.max_abs_angle_rad ++ zoomBad transforms rej.max_abs_zoom_percent
      ++ scaleBad transforms rej.max_scale_jump)

/-- The `reasons` list accumulated by `motion_reliability_ok` after the
early-return guard: missing-fraction check, MAD check, then either the
`max`-mode absolute checks or the budgeted per-metric checks, in program
order. -/
def motionReasons (width height : ℤ) (transforms : List FrameTransform)
    (rej : RejectionSettings) : List String :=
  (if missingFraction transforms > rej.max_missing_fraction
    then ["unreliable_motion_missing"] else [])
  ++ (if madTxFraction width transforms > rej.max_mad_fraction ∨
        madTyFraction height transforms > rej.max_mad_fraction
      then ["unreliable_motion_mad"] else [])
  ++ (if rej.mode = "max" then
        (if maxAbsAngle transforms > rej.max_abs_angle_rad
          then ["unreliable_motion_angle"] else [])
        ++ (if maxAbsZoom transforms > rej.max_abs_zoom_percent
            then ["unreliable_motion_zoom"] else [])
        ++ (if maxScaleJump transforms > rej.max_scale_jump
            then ["unreliable_motion_scale"] else [])
      else
        (if (angleBudget transforms rej).bad_frames_ratio > rej.outlier_max_frames_ratio ∨
            ((angleBudget transforms rej).max_consecutive_bad_frames : ℤ) >
              rej.outlier_max_consecutive_frames
          then ["unreliable_motion_angle"] else [])
        ++ (if (zoomBudget transforms rej).bad_frames_ratio > rej.outlier_max_frames_ratio ∨
              ((zoomBudget transforms rej).max_consecutive_bad_frames : ℤ) >
                rej.outlier_max_consecutive_frames
            then ["unreliable_motion_zoom"] else [])
        ++ (if (scaleBudget transforms rej).bad_frames_ratio > rej.outlier_max_frames_ratio ∨
              ((scaleBudget transforms rej).max_consecutive_bad_frames : ℤ) >
                rej.outlier_max_consecutive_frames
            then ["unreliable_motion_scale"] else []))

/-- The stats dict of `motion_reliability_ok`: the early-return path carries
only `missing_fraction`; the full path carries the scalar statistics and the
four outlier-budget dicts. The purely diagnostic per-frame fields of the
code (worst-frame indices, top-5 lists, the jump pair) are not consulted by
anything verified here and are omitted. -/
inductive MotionStats where
  | missingOnly (missing_fraction : ℚ)
  | full (missing_fraction mad_tx_fraction mad_ty_fraction max_scale_jump
      max_abs_angle_rad max_abs_zoom_percent : ℚ) (rejection_mode : String)
      (angle_outliers zoom_outliers scale_jump_outliers combined_outliers : BudgetStats)
  deriving DecidableEq, Repr

/-- `missing_fraction` of either stats variant. -/
def MotionStats.missingFrac : MotionStats → ℚ
  | .missingOnly mf => mf
  | .full mf _ _ _ _ _ _ _ _ _ _ => mf

/-- `motion_reliability_ok(width, height, transforms, rejection)`:
`(ok, reasons, stats)`. -/
def motion_reliability_ok (width height : ℤ) (transforms : List FrameTransform)
    (rej : RejectionSettings) : Bool × List String × MotionStats :=
  let mf := missingFraction transforms
  if (validFrames transforms).length = 0 then
    (false, ["unreliable_motion_missing"], .missingOnly mf)
  else
    let reasons := motionReasons width height transforms rej
    (reasons.isEmpty, reasons,
      .full mf (madTxFraction width transforms) (madTyFraction height transforms)
        (maxScaleJump transforms) (maxAbsAngle transforms) (maxAbsZoom transforms)
        rej.mode (angleBudget transforms rej) (zoomBudget transforms rej)
        (scaleBudget transforms rej) (combinedBudget transforms rej))

/-- A value produced by `yaml.safe_load`: mapping, list, int, float, bool,
string or null. Floats are modelled exactly over `ℚ`. -/
inductive YamlValue where
  | map (entries : List (String × YamlValue))
  | list (items : List YamlValue)
  | int (n : ℤ)
  | float (q : ℚ)
  | bool (b : Bool)
  | str (s : String)
  | null

/-- Python `==` between a YAML scalar and the Python int constant
`TOOL_CONFIG_HEADER_VALUE = 1`: Python compares numbers across types, so
`True == 1` and `1.0 == 1` both hold. -/
def pyEqInt : YamlValue → ℤ → Bool
  | .int n, v => n = v
  | .bool b, v => (if b then (1 : ℤ) else 0) = v
  | .float q, v => q = (v : ℚ)
  | _, _ => false

/-- `dict.get(TOOL_CONFIG_HEADER_KEY) != TOOL_CONFIG_HEADER_VALUE` is false
exactly when the key is present and its value compares `==` to `1`. -/
def headerMatches (v : Option YamlValue) : Bool :=
  match v with
  | some y => pyEqInt y 1
  | none => false

/-- `load_config(config_path)` after `yaml.safe_load`: reject non-mappings,
reject a missing or non-`1` `stabilize_building` header, otherwise return
the parsed mapping unchanged. The two `raise RuntimeError` branches are the
`Except.error` cases. -/
def load_config (data : YamlValue) : Except String YamlValue :=
  match data with
  | .map entries =>
      if headerMatches (List.lookup "stabilize_building" entries) then .ok (.map entries)
      else .error "config file must set stabilize_building: 1"
  | _ => .error "config file must be a mapping"

/-- How a run of `main` ends past the motion-reliability check: either some
`raise RuntimeError(msg)` (the process exits non-zero) or a normal return. -/
inductive DecisionOutcome where
  | raised (msg : String)
  | returned
  deriving DecidableEq, Repr

/-- One `write_report` call, tracked by its `result.message` and
`result.pass` fields. -/
structure ReportWrite where
  message : String
  pass : Bool
  deriving DecidableEq, Repr

/-- Observable trace of the decision segment of `main`: the report writes in
order, whether `compute_fill_budget` was invoked, and how the run ended. -/
structure DecisionTrace where
  reports : List ReportWrite
  fillBudgetInvoked : Bool
  outcome : DecisionOutcome
  deriving DecidableEq, Repr

/-- The decision-relevant settings resolved by `main` before the
classifier runs. -/
structure DecisionSettings where
  min_area_ratio : ℚ
  effective_min_height_px : ℤ
  center_safe_margin : ℚ
  border_mode : String
  fill_max_area_ratio : ℚ
  fill_max_frames_ratio : ℚ
  fill_max_consecutive_frames : ℤ
  deriving DecidableEq, Repr

/-- Results of the external blocking calls made on the success paths:
`compute_center_patch_median_color` (a hex color, or a raised
`RuntimeError`), `render_stabilized_output_with_fill` and
`render_stabilized_output`. -/
structure ExternalCalls where
  color_sample : Except String String
  render_fill : Except String Unit
  render : Except String Unit
  deriving Repr

/-- `failure_code` chosen for an unreliable-motion report: the single
reason when there is exactly one, else `unreliable_motion_multiple`. -/
def motionFailureCode (reasons : List String) : String :=
  if reasons.length = 1 then reasons.headD "unreliable_motion_multiple"
  else "unreliable_motion_multiple"

/-- The relaxed fill crop chosen by `main`'s fallback path: reuse the
solver's rectangle when it passes the basic constraints, else the smallest
centered aspect-correct rectangle. -/
def fallbackFillCrop (sqrtFn : ℚ → ℚ) (width height : ℤ) (ts : List FrameTransform)
    (cfg : DecisionSettings) : CropRect :=
  if (crop_basic_constraints_ok width height (compute_static_crop width height ts)
      cfg.min_area_ratio cfg.effective_min_height_px).1 then
    compute_static_crop width height ts
  else
    compute_minimum_centered_crop sqrtFn width height cfg.min_area_ratio
      cfg.effective_min_height_px

/-- `ok_fill_crop` after `main`'s (up to two) basic-constraint checks of the
fallback crop. -/
def fallbackFillCropOk (sqrtFn : ℚ → ℚ) (width height : ℤ) (ts : List FrameTransform)
    (cfg : DecisionSettings) : Bool :=
  if (crop_basic_constraints_ok width height (compute_static_crop width height ts)
      cfg.min_area_ratio cfg.effective_min_height_px).1 then
    true
  else
    (crop_basic_constraints_ok width height (fallbackFillCrop sqrtFn width height ts cfg)
      cfg.min_area_ratio cfg.effective_min_height_px).1

/-- The decision segment of `main`, from the `motion_reliability_ok` call to
the terminal report/raise/return: classifier gate, static-crop solve and
validation, border-mode gate, relaxed fill crop selection, fill-budget
check, then the external color/render calls. Every failure path writes its
report and then raises; external-call failures raise without a report. -/
def mainDecision (sqrtFn : ℚ → ℚ) (width height : ℤ)
    (transforms : List FrameTransform) (rej : RejectionSettings)
    (cfg : DecisionSettings) (ext : ExternalCalls) : DecisionTrace :=
  let motion := motion_reliability_ok width height transforms rej
  if !motion.1 then
    let failure_code := motionFailureCode motion.2.1
    { reports := [⟨failure_code, false⟩], fillBudgetInvoked := false
      outcome := .raised failure_code }
  else
    let crop_rect := compute_static_crop width height transforms
    let ok_crop := (crop_constraints_ok width height crop_rect cfg.min_area_ratio
        cfg.effective_min_height_px cfg.center_safe_margin).1
    if !ok_crop then
      if cfg.border_mode ≠ "crop_prefer_fill_fallback" then
        { reports := [⟨"crop infeasible", false⟩], fillBudgetInvoked := false
          outcome := .raised "global stabilization unsuitable for this material (crop infeasible)" }
      else
        let fill_crop := fallbackFillCrop sqrtFn width height transforms cfg
        let ok_fill_crop := fallbackFillCropOk sqrtFn width height transforms cfg
        if !ok_fill_crop then
          { reports := [⟨"fill crop infeasible", false⟩], fillBudgetInvoked := false
            outcome := .raised
              "global stabilization unsuitable for this material (fill crop infeasible)" }
        else
          let passB := (compute_fill_budget transforms width height fill_crop
            cfg.fill_max_area_ratio cfg.fill_max_frames_ratio
            cfg.fill_max_consecutive_frames).passFlag
          if !passB then
            { reports := [⟨"fill budget exceeded", false⟩], fillBudgetInvoked := true
              outcome := .raised
                "global stabilization unsuitable for this material (fill budget exceeded)" }
          else
            match ext.color_sample with
            | .error e => { reports := [], fillBudgetInvoked := true, outcome := .raised e }
            | .ok _ =>
              match ext.render_fill with
              | .error e => { reports := [], fillBudgetInvoked := true, outcome := .raised e }
              | .ok _ =>
                { reports := [⟨"ok", true⟩], fillBudgetInvoked := true, outcome := .returned }
    else
      match ext.render with
      | .error e => { reports := [], fillBudgetInvoked := false, outcome := .raised e }
      | .ok _ => { reports := [⟨"ok", true⟩], fillBudgetInvoked := false, outcome := .returned }

/-- A concrete 7-frame motion path (reference frame, translated frames, one
missing frame) used to instantiate hypothesis-bearing theorems. -/
def witnessPath : List FrameTransform :=
  [⟨0, 0, 0, 0, false, true⟩, ⟨5, 0, 0, 0, false, false⟩, ⟨6, -2, 0, 0, false, false⟩,
   ⟨0, 0, 0, 0, false, false⟩, ⟨-3, 1, 0, 0, false, false⟩, ⟨4, 4, 0, 0, true, false⟩,
   ⟨2, 1/2, 0, 0, false, false⟩]

/-- A path containing only the reference frame, used to instantiate the
empty-denominator theorems. -/
def referenceOnlyPath : List FrameTransform := [⟨0, 0, 0, 0, false, true⟩]

/-- A concrete rejection configuration. -/
def witnessRejection : RejectionSettings := ⟨1, 1, 1, 1/2, 1, "budgeted", 1/4, 1⟩

/-- A one-frame path with constant translation `dx = 10`, `dy = 0`. -/
def shiftTenPath : List FrameTransform := [⟨10, 0, 0, 0, false, false⟩]

/-- A five-frame path with a single angle outlier at frame 2 (threshold
`1/2`, outlier angle `1`), used by the budgeted-rejection scenario. -/
def outlierPath : List FrameTransform :=
  [⟨0, 0, 0, 0, false, true⟩, ⟨1, 0, 0, 0, false, false⟩, ⟨2, 1, 1, 0, false, false⟩,
   ⟨1, 0, 0, 0, false, false⟩, ⟨0, 1, 0, 0, false, false⟩]

/-- Concrete decision settings with `min_area_ratio = 1` (forcing crop
rejection) and border mode `crop_only` (no fallback). -/
def witnessSettings : DecisionSettings := ⟨1, 10, 1/10, "crop_only", 1/10, 1/10, 3⟩

/-- Concrete external-call results: all succeed. -/
def witnessExternal : ExternalCalls := ⟨.ok "#000000", .ok (), .ok ()⟩

/-! ### Theorems for the claims -/

/-- C2: for every transform list, every crop rectangle with positive width
and height, and every non-negative budget triple, `compute_fill_budget`
returns `pass = true` iff the worst per-frame fill ratio is at most
`max_area_ratio`, the fraction of fill-needing frames is at most
`max_frames_ratio`, and the longest consecutive fill run is at most
`max_consecutive_frames`. -/
theorem claim_C2_fill_budget_pass_iff (transforms : List FrameTransform) (width height : ℤ)
    (rect : CropRect) (max_area_ratio max_frames_ratio : ℚ) (max_consecutive : ℤ)
    (_ha : 0 ≤ max_area_ratio) (_hf : 0 ≤ max_frames_ratio) (hm : 0 ≤ max_consecutive)
    (hcw : 0 < rect.w) (hch : 0 < rect.h) :
    (compute_fill_budget transforms width height rect max_area_ratio max_frames_ratio
        max_consecutive).passFlag = true ↔
      ((compute_fill_budget transforms width height rect max_area_ratio max_frames_ratio
          max_consecutive).maxFillAreaRatio ≤ max_area_ratio ∧
       (compute_fill_budget transforms width height rect max_area_ratio max_frames_ratio
          max_consecutive).framesRatio ≤ max_frames_ratio ∧
       ((compute_fill_budget transforms width height rect max_area_ratio max_frames_ratio
          max_consecutive).maxConsecutive : ℤ) ≤ max_consecutive) := by
  have hguard : ¬(((rect.w : ℤ) : ℚ) ≤ 0 ∨ ((rect.h : ℤ) : ℚ) ≤ 0) := by
    push_neg
    exact ⟨by exact_mod_cast hcw, by exact_mod_cast hch⟩
  unfold compute_fill_budget
  rw [if_neg hguard]
  simp only [FillBudgetResult.passFlag, FillBudgetResult.framesRatio,
    FillBudgetResult.maxFillAreaRatio, FillBudgetResult.maxConsecutive]
  constructor
  · intro hpass
    simp only [Bool.not_eq_true', Bool.or_eq_false_iff, Bool.and_eq_false_iff,
      decide_eq_false_iff_not, not_lt, gt_iff_lt, ge_iff_le] at hpass
    obtain ⟨⟨h1, h2⟩, h3⟩ := hpass
    refine ⟨h1, h2, ?_⟩
    rcases h3 with h3 | h3
    · exact absurd hm h3
    · exact h3
  · intro hconj
    obtain ⟨h1, h2, h3⟩ := hconj
    simp only [Bool.not_eq_true', Bool.or_eq_false_iff, Bool.and_eq_false_iff,
      decide_eq_false_iff_not, not_lt, gt_iff_lt, ge_iff_le]
    exact ⟨⟨h1, h2⟩, Or.inr h3⟩

/-- C9: with no countable frames the guarded ratios fall back to the
worst-case value `1`: `compute_fill_budget` reports `frames_ratio = 1`
when no frame is both non-missing and non-reference, and
`motion_reliability_ok` reports `missing_fraction = 1` when no frame is
non-reference. (Both embedded functions are total by construction.) -/
theorem claim_C9_empty_denominator_sentinels (width height : ℤ)
    (ts ts2 : List FrameTransform) (rect : CropRect)
    (max_area_ratio max_frames_ratio : ℚ) (max_consecutive : ℤ) (rej : RejectionSettings)
    (hcw : 0 < rect.w) (hch : 0 < rect.h)
    (hall : ∀ t ∈ ts, t.missing = true ∨ t.is_reference = true)
    (hnr : ∀ t ∈ ts2, t.is_reference = true) :
    (compute_fill_budget ts width height rect max_area_ratio max_frames_ratio
        max_consecutive).framesRatio = 1 ∧
    (compute_fill_budget ts width height rect max_area_ratio max_frames_ratio
        max_consecutive).totalFrames = 0 ∧
    (motion_reliability_ok width height ts2 rej).2.2.missingFrac = 1 := by
  have hguard : ¬(((rect.w : ℤ) : ℚ) ≤ 0 ∨ ((rect.h : ℤ) : ℚ) ≤ 0) := by
    push_neg
    exact ⟨by exact_mod_cast hcw, by exact_mod_cast hch⟩
  have hfold : ∀ st : FillLoopState,
      ts.foldl (fillStep width height (rect.x : ℚ) (rect.y : ℚ) (rect.w : ℚ) (rect.h : ℚ)) st
        = st := by
    induction ts with
    | nil => intro st; rfl
    | cons a rest ih =>
      intro st
      have ha := hall a (List.mem_cons_self a rest)
      have hstep : fillStep width height (rect.x : ℚ) (rect.y : ℚ) (rect.w : ℚ) (rect.h : ℚ)
          st a = st := by
        unfold fillStep
        rw [if_pos]
        rcases ha with ha | ha
        · exact Or.inl ha
        · exact Or.inr ha
      rw [List.foldl_cons, hstep]
      exact ih (fun t ht => hall t (List.mem_cons_of_mem a ht)) st
  have hempty : nonReferenceFrames ts2 = [] := by
    rw [nonReferenceFrames, List.filter_eq_nil_iff]
    intro t ht
    simp [hnr t ht]
  refine ⟨?_, ?_, ?_⟩
  · unfold compute_fill_budget
    rw [if_neg hguard]
    simp only [FillBudgetResult.framesRatio]
    rw [hfold]
    rfl
  · unfold compute_fill_budget
    rw [if_neg hguard]
    simp only [FillBudgetResult.totalFrames]
    rw [hfold]
  · have hmf : missingFraction ts2 = 1 := by
      rw [missingFraction, hempty]
      rfl
    unfold motion_reliability_ok
    split
    · simp [MotionStats.missingFrac, hmf]
    · simp [MotionStats.missingFrac, hmf]

/-- C2 witness: the pass-condition equivalence instantiated on a concrete
path and budget triple. -/
theorem claim_C2_fill_budget_pass_iff_witness :
    (0 ≤ (1/10 : ℚ)) ∧ (0 ≤ (9/10 : ℚ)) ∧ (0 ≤ (3 : ℤ)) ∧
    (0 < (⟨4, 2, 92, 46⟩ : CropRect).w) ∧ (0 < (⟨4, 2, 92, 46⟩ : CropRect).h) ∧
    ((compute_fill_budget witnessPath 100 50 ⟨4, 2, 92, 46⟩ (1/10) (9/10) 3).passFlag = true ↔
      ((compute_fill_budget witnessPath 100 50 ⟨4, 2, 92, 46⟩ (1/10) (9/10) 3).maxFillAreaRatio
          ≤ 1/10 ∧
       (compute_fill_budget witnessPath 100 50 ⟨4, 2, 92, 46⟩ (1/10) (9/10) 3).framesRatio
          ≤ 9/10 ∧
       ((compute_fill_budget witnessPath 100 50 ⟨4, 2, 92, 46⟩ (1/10) (9/10) 3).maxConsecutive
          : ℤ) ≤ 3)) :=
  ⟨by norm_num, by norm_num, by norm_num, by decide, by decide,
    claim_C2_fill_budget_pass_iff witnessPath 100 50 ⟨4, 2, 92, 46⟩ (1/10) (9/10) 3
      (by norm_num) (by norm_num) (by norm_num) (by decide) (by decide)⟩

/-- C9 witness: the sentinel values on a path holding only the reference
frame. -/
theorem claim_C9_empty_denominator_sentinels_witness :
    (compute_fill_budget referenceOnlyPath 100 50 ⟨0, 0, 10, 10⟩ 1 1 1).framesRatio = 1 ∧
    (compute_fill_budget referenceOnlyPath 100 50 ⟨0, 0, 10, 10⟩ 1 1 1).totalFrames = 0 ∧
    (motion_reliability_ok 100 50 referenceOnlyPath witnessRejection).2.2.missingFrac = 1 :=
  claim_C9_empty_denominator_sentinels 100 50 referenceOnlyPath referenceOnlyPath
    ⟨0, 0, 10, 10⟩ 1 1 1 witnessRejection (by decide) (by decide) (by decide) (by decide)

/-- C10 counterexample: a mapping whose `stabilize_building` value is the
boolean `true` — not the integer `1` — is accepted by `load_config`,
because Python's `==` identifies `True` with `1`. -/
theorem claim_C10_counterexample :
    load_config (.map [("stabilize_building", .bool true)])
        = .ok (.map [("stabilize_building", .bool true)]) ∧
      YamlValue.bool true ≠ YamlValue.int 1 :=
  ⟨by with_unfolding_all rfl, fun hcontra => YamlValue.noConfusion hcontra⟩

/-- C10 (amended): `load_config` succeeds exactly on mappings whose
`stabilize_building` value compares equal to `1` under Python `==` (the
integer `1`, the boolean `True`, or the float `1.0`), and then returns the
mapping unchanged; every other input is rejected with an error. -/
theorem claim_C10_header_gate (d : YamlValue) :
    (load_config d = .ok d ↔
      ∃ entries, d = .map entries ∧
        headerMatches (List.lookup "stabilize_building" entries) = true) ∧
    (∀ m, load_config d = .ok m → m = d) := by
  constructor
  · cases d with
    | map entries =>
      constructor
      · intro hok
        refine ⟨entries, rfl, ?_⟩
        by_contra hfalse
        rw [Bool.not_eq_true] at hfalse
        simp only [load_config, hfalse, Bool.false_eq_true, if_false] at hok
        exact Except.noConfusion hok
      · rintro ⟨entries', heq, hmatch⟩
        obtain rfl : entries = entries' := by
          injection heq with h
        simp only [load_config, hmatch, if_true]
    | list items => simp [load_config]
    | int n => simp [load_config]
    | float q => simp [load_config]
    | bool b => simp [load_config]
    | str s => simp [load_config]
    | null => simp [load_config]
  · intro m hok
    cases d with
    | map entries =>
      simp only [load_config] at hok
      by_cases hmatch : headerMatches (List.lookup "stabilize_building" entries) = true
      · rw [if_pos hmatch] at hok
        injection hok with h
        exact h.symm
      · rw [if_neg hmatch] at hok
        exact Except.noConfusion hok
    | list items => exact Except.noConfusion hok
    | int n => exact Except.noConfusion hok
    | float q => exact Except.noConfusion hok
    | bool b => exact Except.noConfusion hok
    | str s => exact Except.noConfusion hok
    | null => exact Except.noConfusion hok

/-- C10 witness: the canonical header `stabilize_building: 1` is accepted
and returned unchanged. -/
theorem claim_C10_header_gate_witness :
    load_config (.map [("stabilize_building", .int 1)])
      = .ok (.map [("stabilize_building", .int 1)]) :=
  (claim_C10_header_gate (.map [("stabilize_building", .int 1)])).1.mpr
    ⟨[("stabilize_building", .int 1)], rfl, by with_unfolding_all rfl⟩

theorem cropStep_left_le (width height : ℤ) (bb : BBox) (t : FrameTransform) :
    bb.left ≤ (cropStep width height bb t).left := by
  unfold cropStep
  split
  · exact le_refl _
  · exact le_max_left _ _

theorem cropStep_top_le (width height : ℤ) (bb : BBox) (t : FrameTransform) :
    bb.top ≤ (cropStep width height bb t).top := by
  unfold cropStep
  split
  · exact le_refl _
  · exact le_max_left _ _

theorem cropStep_right_ge (width height : ℤ) (bb : BBox) (t : FrameTransform) :
    (cropStep width height bb t).right ≤ bb.right := by
  unfold cropStep
  split
  · exact le_refl _
  · exact min_le_left _ _

theorem cropStep_bottom_ge (width height : ℤ) (bb : BBox) (t : FrameTransform) :
    (cropStep width height bb t).bottom ≤ bb.bottom := by
  unfold cropStep
  split
  · exact le_refl _
  · exact min_le_left _ _

theorem cropStep_of_not_missing (width height : ℤ) (bb : BBox) (t : FrameTransform)
    (hm : t.missing = false) :
    cropStep width height bb t =
      ⟨max bb.left (max 0 (-t.dx)), max bb.top (max 0 (-t.dy)),
       min bb.right (min (width : ℚ) ((width : ℚ) + -t.dx)),
       min bb.bottom (min (height : ℚ) ((height : ℚ) + -t.dy))⟩ := by
  unfold cropStep
  rw [if_neg (by simp [hm])]

theorem foldl_cropStep_left_mono (width height : ℤ) (ts : List FrameTransform) (bb : BBox) :
    bb.left ≤ (ts.foldl (cropStep width height) bb).left := by
  induction ts generalizing bb with
  | nil => exact le_refl _
  | cons a rest ih =>
    rw [List.foldl_cons]
    exact le_trans (cropStep_left_le width height bb a) (ih _)

theorem foldl_cropStep_top_mono (width height : ℤ) (ts : List FrameTransform) (bb : BBox) :
    bb.top ≤ (ts.foldl (cropStep width height) bb).top := by
  induction ts generalizing bb with
  | nil => exact le_refl _
  | cons a rest ih =>
    rw [List.foldl_cons]
    exact le_trans (cropStep_top_le width height bb a) (ih _)

theorem foldl_cropStep_right_anti (width height : ℤ) (ts : List FrameTransform) (bb : BBox) :
    (ts.foldl (cropStep width height) bb).right ≤ bb.right := by
  induction ts generalizing bb with
  | nil => exact le_refl _
  | cons a rest ih =>
    rw [List.foldl_cons]
    exact le_trans (ih _) (cropStep_right_ge width height bb a)

theorem foldl_cropStep_bottom_anti (width height : ℤ) (ts : List FrameTransform) (bb : BBox) :
    (ts.foldl (cropStep width height) bb).bottom ≤ bb.bottom := by
  induction ts generalizing bb with
  | nil => exact le_refl _
  | cons a rest ih =>
    rw [List.foldl_cons]
    exact le_trans (ih _) (cropStep_bottom_ge width height bb a)

theorem foldl_cropStep_left_of_mem (width height : ℤ) (ts : List FrameTransform) (bb : BBox)
    (t : FrameTransform) (ht : t ∈ ts) (hm : t.missing = false) :
    max 0 (-t.dx) ≤ (ts.foldl (cropStep width height) bb).left := by
  induction ts generalizing bb with
  | nil => exact absurd ht (List.not_mem_nil t)
  | cons a rest ih =>
    rw [List.foldl_cons]
    rcases List.mem_cons.mp ht with rfl | hmem
    · refine le_trans ?_ (foldl_cropStep_left_mono width height rest _)
      rw [cropStep_of_not_missing width height bb t hm]
      exact le_max_right _ _
    · exact ih _ hmem

theorem foldl_cropStep_top_of_mem (width height : ℤ) (ts : List FrameTransform) (bb : BBox)
    (t : FrameTransform) (ht : t ∈ ts) (hm : t.missing = false) :
    max 0 (-t.dy) ≤ (ts.foldl (cropStep width height) bb).top := by
  induction ts generalizing bb with
  | nil => exact absurd ht (List.not_mem_nil t)
  | cons a rest ih =>
    rw [List.foldl_cons]
    rcases List.mem_cons.mp ht with rfl | hmem
    · refine le_trans ?_ (foldl_cropStep_top_mono width height rest _)
      rw [cropStep_of_not_missing width height bb t hm]
      exact le_max_right _ _
    · exact ih _ hmem

theorem foldl_cropStep_right_of_mem (width height : ℤ) (ts : List FrameTransform) (bb : BBox)
    (t : FrameTransform) (ht : t ∈ ts) (hm : t.missing = false) :
    (ts.foldl (cropStep width height) bb).right ≤ min (width : ℚ) ((width : ℚ) + -t.dx) := by
  induction ts generalizing bb with
  | nil => exact absurd ht (List.not_mem_nil t)
  | cons a rest ih =>
    rw [List.foldl_cons]
    rcases List.mem_cons.mp ht with rfl | hmem
    · refine le_trans (foldl_cropStep_right_anti width height rest _) ?_
      rw [cropStep_of_not_missing width height bb t hm]
      exact min_le_right _ _
    · exact ih _ hmem

theorem foldl_cropStep_bottom_of_mem (width height : ℤ) (ts : List FrameTransform) (bb : BBox)
    (t : FrameTransform) (ht : t ∈ ts) (hm : t.missing = false) :
    (ts.foldl (cropStep width height) bb).bottom ≤ min (height : ℚ) ((height : ℚ) + -t.dy) := by
  induction ts generalizing bb with
  | nil => exact absurd ht (List.not_mem_nil t)
  | cons a rest ih =>
    rw [List.foldl_cons]
    rcases List.mem_cons.mp ht with rfl | hmem
    · refine le_trans (foldl_cropStep_bottom_anti width height rest _) ?_
      rw [cropStep_of_not_missing width height bb t hm]
      exact min_le_right _ _
    · exact ih _ hmem

/-- C6: if every frame has `dx = 0` and `dy = 0`, `compute_static_crop`
returns the full-frame rectangle. -/
theorem claim_C6_identity_full_frame (width height : ℤ) (ts : List FrameTransform)
    (hw : 0 < width) (hh : 0 < height) (hid : ∀ t ∈ ts, t.dx = 0 ∧ t.dy = 0) :
    compute_static_crop width height ts = ⟨0, 0, width, height⟩ := by
  have hbb : intersectBBoxes width height ts = ⟨0, 0, (width : ℚ), (height : ℚ)⟩ := by
    unfold intersectBBoxes
    induction ts with
    | nil => rfl
    | cons a rest ih =>
      rw [List.foldl_cons]
      have hstep : cropStep width height ⟨0, 0, (width : ℚ), (height : ℚ)⟩ a
          = ⟨0, 0, (width : ℚ), (height : ℚ)⟩ := by
        obtain ⟨hda, hdb⟩ := hid a (List.mem_cons_self a rest)
        unfold cropStep
        split
        · rfl
        · simp [hda, hdb]
      rw [hstep]
      exact ih (fun t htm => hid t (List.mem_cons_of_mem a htm))
  have hx0 : rawCropX0 width height ts = 0 := by
    rw [rawCropX0, hbb]
    exact Int.ceil_zero
  have hy0 : rawCropY0 width height ts = 0 := by
    rw [rawCropY0, hbb]
    exact Int.ceil_zero
  have hx1 : rawCropX1 width height ts = width := by
    rw [rawCropX1, hbb]
    exact Int.floor_intCast width
  have hy1 : rawCropY1 width height ts = height := by
    rw [rawCropY1, hbb]
    exact Int.floor_intCast height
  have hwq : ((width : ℤ) : ℚ) ≠ 0 := by
    exact_mod_cast hw.ne'
  have hhq : ((height : ℤ) : ℚ) ≠ 0 := by
    exact_mod_cast hh.ne'
  have hfit : aspectFit width height ((width : ℚ) / (height : ℚ)) = (width, height) := by
    unfold aspectFit
    rw [if_neg (lt_irrefl _)]
    have hcancel : (width : ℚ) / ((width : ℚ) / (height : ℚ)) = (height : ℚ) := by
      field_simp
    rw [hcancel, Int.floor_intCast]
  unfold compute_static_crop
  rw [hx0, hy0, hx1, hy1]
  have hg1 : ¬(width - 0 ≤ 0 ∨ height - 0 ≤ 0) := by
    push_neg
    constructor
    · omega
    · omega
  rw [if_neg hg1]
  simp only [sub_zero]
  rw [hfit]
  have hg2 : ¬(width ≤ 0 ∨ height ≤ 0) := by
    push_neg
    exact ⟨hw, hh⟩
  rw [if_neg hg2]
  simp [Int.sub_self]

/-- C6 witness: the identity claim instantiated on a one-frame path. -/
theorem claim_C6_identity_full_frame_witness :
    compute_static_crop 100 50 referenceOnlyPath = ⟨0, 0, 100, 50⟩ :=
  claim_C6_identity_full_frame 100 50 referenceOnlyPath (by decide) (by decide) (by decide)

theorem foldl_cropStep_left_le_of (width height : ℤ) (ts : List FrameTransform) (bb : BBox)
    (c : ℚ) (hbb : bb.left ≤ c)
    (hts : ∀ t ∈ ts, t.missing = false → max 0 (-t.dx) ≤ c) :
    (ts.foldl (cropStep width height) bb).left ≤ c := by
  induction ts generalizing bb with
  | nil => exact hbb
  | cons a rest ih =>
    rw [List.foldl_cons]
    have hstep : (cropStep width height bb a).left ≤ c := by
      unfold cropStep
      split
      · exact hbb
      · next hnm =>
        exact max_le hbb (hts a (List.mem_cons_self a rest) (Bool.eq_false_iff.mpr hnm))
    exact ih _ hstep (fun t htm hm => hts t (List.mem_cons_of_mem a htm) hm)

theorem foldl_cropStep_right_ge_of (width height : ℤ) (ts : List FrameTransform) (bb : BBox)
    (c : ℚ) (hbb : c ≤ bb.right)
    (hts : ∀ t ∈ ts, t.missing = false → c ≤ min (width : ℚ) ((width : ℚ) + -t.dx)) :
    c ≤ (ts.foldl (cropStep width height) bb).right := by
  induction ts generalizing bb with
  | nil => exact hbb
  | cons a rest ih =>
    rw [List.foldl_cons]
    have hstep : c ≤ (cropStep width height bb a).right := by
      unfold cropStep
      split
      · exact hbb
      · next hnm =>
        exact le_min hbb (hts a (List.mem_cons_self a rest) (Bool.eq_false_iff.mpr hnm))
    exact ih _ hstep (fun t htm hm => hts t (List.mem_cons_of_mem a htm) hm)

/-- C4 counterexample: with constant `dx = 10 > 0` on a 100-wide source, the
globally-valid rectangle's right edge moves from `100` to `90` — it is not
unaffected — although the width does shrink by exactly `10`. -/
theorem claim_C4_counterexample :
    (intersectBBoxes 100 50 shiftTenPath).right = 90 ∧ (90 : ℚ) ≠ 100 ∧
    rawCropX1 100 50 shiftTenPath - rawCropX0 100 50 shiftTenPath = 100 - 10 ∧
    (intersectBBoxes 100 50 shiftTenPath).left = 0 :=
  ⟨by with_unfolding_all rfl, by norm_num, by with_unfolding_all rfl,
   by with_unfolding_all rfl⟩

/-- C4 (amended): for a motion path whose non-missing frames all carry
`dx = D ≠ 0`, `dy = 0`, with `|D| < width` and at least one non-missing
frame, the globally-valid rectangle's width shrinks by exactly `|D|`; for
`D > 0` the LEFT edge is unaffected and the right edge moves in by `D`,
symmetrically for `D < 0` the RIGHT edge is unaffected. -/
theorem claim_C4_constant_translation (width height : ℤ) (ts : List FrameTransform)
    (D : ℤ) (_hw : 0 < width) (hD : D ≠ 0) (_hDw : |D| < width)
    (huni : ∀ t ∈ ts, t.missing = false → t.dx = (D : ℚ) ∧ t.dy = 0)
    (hex : ∃ t ∈ ts, t.missing = false) :
    rawCropX1 width height ts - rawCropX0 width height ts = width - |D| ∧
    (0 < D → (intersectBBoxes width height ts).left = 0 ∧
      (intersectBBoxes width height ts).right = (width : ℚ) - (D : ℚ) ∧
      rawCropX0 width height ts = 0 ∧ rawCropX1 width height ts = width - D) ∧
    (D < 0 → (intersectBBoxes width height ts).left = -(D : ℚ) ∧
      (intersectBBoxes width height ts).right = (width : ℚ) ∧
      rawCropX0 width height ts = -D ∧ rawCropX1 width height ts = width) := by
  obtain ⟨t0, ht0, hm0⟩ := hex
  obtain ⟨hdx0, _⟩ := huni t0 ht0 hm0
  have hleft : (intersectBBoxes width height ts).left = max 0 (-(D : ℚ)) := by
    apply le_antisymm
    · apply foldl_cropStep_left_le_of
      · exact le_max_left _ _
      · intro t htm hm
        rw [(huni t htm hm).1]
    · have := foldl_cropStep_left_of_mem width height ts
        ⟨0, 0, (width : ℚ), (height : ℚ)⟩ t0 ht0 hm0
      rwa [hdx0] at this
  have hright : (intersectBBoxes width height ts).right
      = min (width : ℚ) ((width : ℚ) + -(D : ℚ)) := by
    apply le_antisymm
    · have := foldl_cropStep_right_of_mem width height ts
        ⟨0, 0, (width : ℚ), (height : ℚ)⟩ t0 ht0 hm0
      rwa [hdx0] at this
    · apply foldl_cropStep_right_ge_of
      · exact min_le_left _ _
      · intro t htm hm
        rw [(huni t htm hm).1]
  have hDq : ((D : ℤ) : ℚ) ≠ 0 := Int.cast_ne_zero.mpr hD
  rcases hD.lt_or_lt with hneg | hpos
  · -- D < 0
    have hDqneg : ((D : ℤ) : ℚ) < 0 := by exact_mod_cast hneg
    have habs : |D| = -D := abs_of_neg hneg
    have hl : (intersectBBoxes width height ts).left = -(D : ℚ) := by
      rw [hleft, max_eq_right (by linarith)]
    have hr : (intersectBBoxes width height ts).right = (width : ℚ) := by
      rw [hright, min_eq_left (by linarith)]
    have hx0 : rawCropX0 width height ts = -D := by
      rw [rawCropX0, hl]
      rw [show (-(D : ℚ)) = ((-D : ℤ) : ℚ) by push_cast; ring]
      exact Int.ceil_intCast _
    have hx1 : rawCropX1 width height ts = width := by
      rw [rawCropX1, hr]
      exact Int.floor_intCast _
    refine ⟨?_, ?_, ?_⟩
    · rw [hx0, hx1, habs]
    · intro hcontra
      exact absurd hcontra (not_lt.mpr hneg.le)
    · intro _
      exact ⟨hl, hr, hx0, hx1⟩
  · -- 0 < D
    have hDqpos : (0 : ℚ) < ((D : ℤ) : ℚ) := by exact_mod_cast hpos
    have habs : |D| = D := abs_of_pos hpos
    have hl : (intersectBBoxes width height ts).left = 0 := by
      rw [hleft, max_eq_left (by linarith)]
    have hr : (intersectBBoxes width height ts).right = (width : ℚ) - (D : ℚ) := by
      rw [hright, min_eq_right (by linarith)]
      ring
    have hx0 : rawCropX0 width height ts = 0 := by
      rw [rawCropX0, hl]
      exact Int.ceil_zero
    have hx1 : rawCropX1 width height ts = width - D := by
      rw [rawCropX1, hr]
      rw [show ((width : ℚ) - (D : ℚ)) = ((width - D : ℤ) : ℚ) by push_cast; ring]
      exact Int.floor_intCast _
    refine ⟨?_, ?_, ?_⟩
    · rw [hx0, hx1, habs]
      ring
    · intro _
      exact ⟨hl, hr, hx0, hx1⟩
    · intro hcontra
      exact absurd hcontra (not_lt.mpr hpos.le)

/-- C4 witness: the amended statement instantiated at `D = 10` on a
one-frame path over a 100-wide source. -/
theorem claim_C4_constant_translation_witness :
    rawCropX1 100 50 shiftTenPath - rawCropX0 100 50 shiftTenPath = 100 - |(10 : ℤ)| ∧
    (0 < (10 : ℤ) → (intersectBBoxes 100 50 shiftTenPath).left = 0 ∧
      (intersectBBoxes 100 50 shiftTenPath).right = (100 : ℚ) - (10 : ℚ) ∧
      rawCropX0 100 50 shiftTenPath = 0 ∧ rawCropX1 100 50 shiftTenPath = 100 - 10) ∧
    ((10 : ℤ) < 0 → (intersectBBoxes 100 50 shiftTenPath).left = -(10 : ℚ) ∧
      (intersectBBoxes 100 50 shiftTenPath).right = (100 : ℚ) ∧
      rawCropX0 100 50 shiftTenPath = -10 ∧ rawCropX1 100 50 shiftTenPath = 100) :=
  claim_C4_constant_translation 100 50 shiftTenPath 10 (by decide) (by decide) (by decide)
    (by decide) (by decide)

theorem fdiv_two_nonneg {n : ℤ} (hn : 0 ≤ n) : 0 ≤ n.fdiv 2 :=
  Int.fdiv_nonneg hn (by norm_num)

theorem fdiv_two_le_self {n : ℤ} (hn : 0 ≤ n) : n.fdiv 2 ≤ n := by
  rw [Int.fdiv_eq_ediv _ (by norm_num)]
  exact Int.ediv_le_self _ hn

theorem aspectFit_fst_le (raw_w raw_h : ℤ) (aspect : ℚ) (hrh : 0 < raw_h) :
    (aspectFit raw_w raw_h aspect).1 ≤ raw_w := by
  unfold aspectFit
  split
  · next hgt =>
    have hrhq : (0 : ℚ) < (raw_h : ℚ) := by exact_mod_cast hrh
    have hlt : (raw_h : ℚ) * aspect < (raw_w : ℚ) := by
      have := mul_lt_mul_of_pos_left hgt hrhq
      rwa [mul_div_cancel₀ _ hrhq.ne'] at this
    exact le_of_lt (Int.floor_lt.mpr hlt)
  · exact le_refl _

theorem aspectFit_snd_le (raw_w raw_h : ℤ) (aspect : ℚ) (hrh : 0 < raw_h)
    (haspect : 0 < aspect) :
    (aspectFit raw_w raw_h aspect).2 ≤ raw_h := by
  unfold aspectFit
  split
  · exact le_refl _
  · next hle =>
    rw [not_lt] at hle
    have hrhq : (0 : ℚ) < (raw_h : ℚ) := by exact_mod_cast hrh
    have h1 : (raw_w : ℚ) ≤ aspect * (raw_h : ℚ) := by
      rw [div_le_iff hrhq] at hle
      linarith
    have h2 : (raw_w : ℚ) / aspect ≤ (raw_h : ℚ) := by
      rw [div_le_iff haspect]
      linarith
    exact (Int.floor_le_floor h2).trans_eq (Int.floor_intCast raw_h)

theorem aspectFit_ratio_close (raw_w raw_h : ℤ) (aspect : ℚ) (hrh : 0 < raw_h)
    (haspect : 0 < aspect) (hch : 0 < (aspectFit raw_w raw_h aspect).2) :
    |((aspectFit raw_w raw_h aspect).1 : ℚ) / ((aspectFit raw_w raw_h aspect).2 : ℚ) - aspect|
      < (1 + aspect) / ((aspectFit raw_w raw_h aspect).2 : ℚ) := by
  by_cases hbr : (raw_w : ℚ) / (raw_h : ℚ) > aspect
  · simp only [aspectFit, if_pos hbr] at hch ⊢
    have hr : (0 : ℚ) < (raw_h : ℚ) := by exact_mod_cast hrh
    have hfle : ((⌊(raw_h : ℚ) * aspect⌋ : ℤ) : ℚ) ≤ (raw_h : ℚ) * aspect := Int.floor_le _
    have hfgt : (raw_h : ℚ) * aspect - 1 < ((⌊(raw_h : ℚ) * aspect⌋ : ℤ) : ℚ) :=
      Int.sub_one_lt_floor _
    rw [abs_sub_lt_iff]
    constructor
    · have hfr : ((⌊(raw_h : ℚ) * aspect⌋ : ℤ) : ℚ) / (raw_h : ℚ) ≤ aspect :=
        (div_le_iff hr).mpr (by linarith)
      have hrhs : (0 : ℚ) < (1 + aspect) / (raw_h : ℚ) := div_pos (by linarith) hr
      linarith
    · have hstep : (aspect * (raw_h : ℚ) - 1) / (raw_h : ℚ)
          < ((⌊(raw_h : ℚ) * aspect⌋ : ℤ) : ℚ) / (raw_h : ℚ) :=
        (div_lt_div_iff hr hr).mpr (by nlinarith)
      have hsplit : (aspect * (raw_h : ℚ) - 1) / (raw_h : ℚ) = aspect - 1 / (raw_h : ℚ) := by
        rw [sub_div, mul_div_cancel_right₀ _ hr.ne']
      have hmono : (1 : ℚ) / (raw_h : ℚ) ≤ (1 + aspect) / (raw_h : ℚ) := by
        gcongr
        linarith
      linarith [hstep, hsplit ▸ hstep]
  · simp only [aspectFit, if_neg hbr] at hch ⊢
    rw [not_lt] at hbr
    have hc : (0 : ℚ) < ((⌊(raw_w : ℚ) / aspect⌋ : ℤ) : ℚ) := by exact_mod_cast hch
    have hfle : ((⌊(raw_w : ℚ) / aspect⌋ : ℤ) : ℚ) ≤ (raw_w : ℚ) / aspect := Int.floor_le _
    have hfgt : (raw_w : ℚ) / aspect - 1 < ((⌊(raw_w : ℚ) / aspect⌋ : ℤ) : ℚ) :=
      Int.sub_one_lt_floor _
    have h1 : aspect * ((⌊(raw_w : ℚ) / aspect⌋ : ℤ) : ℚ) ≤ (raw_w : ℚ) := by
      rw [le_div_iff haspect] at hfle
      linarith
    have h2 : (raw_w : ℚ) < (((⌊(raw_w : ℚ) / aspect⌋ : ℤ) : ℚ) + 1) * aspect := by
      rw [div_sub_one haspect.ne', div_lt_iff haspect] at hfgt
      nlinarith
    rw [abs_sub_lt_iff]
    constructor
    · have hlt : (raw_w : ℚ) / ((⌊(raw_w : ℚ) / aspect⌋ : ℤ) : ℚ)
          < (((⌊(raw_w : ℚ) / aspect⌋ : ℤ) : ℚ) * aspect + aspect)
            / ((⌊(raw_w : ℚ) / aspect⌋ : ℤ) : ℚ) :=
        (div_lt_div_iff hc hc).mpr (by nlinarith)
      have hsplit : (((⌊(raw_w : ℚ) / aspect⌋ : ℤ) : ℚ) * aspect + aspect)
            / ((⌊(raw_w : ℚ) / aspect⌋ : ℤ) : ℚ)
          = aspect + aspect / ((⌊(raw_w : ℚ) / aspect⌋ : ℤ) : ℚ) := by
        rw [add_div, mul_div_cancel_left₀ _ hc.ne']
      have hmono : aspect / ((⌊(raw_w : ℚ) / aspect⌋ : ℤ) : ℚ)
          ≤ (1 + aspect) / ((⌊(raw_w : ℚ) / aspect⌋ : ℤ) : ℚ) := by
        gcongr
        linarith
      rw [hsplit] at hlt
      linarith
    · have hfr : aspect ≤ (raw_w : ℚ) / ((⌊(raw_w : ℚ) / aspect⌋ : ℤ) : ℚ) :=
        (le_div_iff hc).mpr (by nlinarith)
      have hrhs : (0 : ℚ) < (1 + aspect) / ((⌊(raw_w : ℚ) / aspect⌋ : ℤ) : ℚ) :=
        div_pos (by linarith) hc
      linarith

theorem compute_static_crop_of_pos (width height : ℤ) (ts : List FrameTransform)
    (hpos : 0 < (compute_static_crop width height ts).w) :
    0 < rawCropX1 width height ts - rawCropX0 width height ts ∧
    0 < rawCropY1 width height ts - rawCropY0 width height ts ∧
    0 < (aspectFit (rawCropX1 width height ts - rawCropX0 width height ts)
        (rawCropY1 width height ts - rawCropY0 width height ts)
        ((width : ℚ) / (height : ℚ))).1 ∧
    0 < (aspectFit (rawCropX1 width height ts - rawCropX0 width height ts)
        (rawCropY1 width height ts - rawCropY0 width height ts)
        ((width : ℚ) / (height : ℚ))).2 ∧
    compute_static_crop width height ts =
      ⟨rawCropX0 width height ts +
          ((rawCropX1 width height ts - rawCropX0 width height ts) -
            (aspectFit (rawCropX1 width height ts - rawCropX0 width height ts)
              (rawCropY1 width height ts - rawCropY0 width height ts)
              ((width : ℚ) / (height : ℚ))).1).fdiv 2,
       rawCropY0 width height ts +
          ((rawCropY1 width height ts - rawCropY0 width height ts) -
            (aspectFit (rawCropX1 width height ts - rawCropX0 width height ts)
              (rawCropY1 width height ts - rawCropY0 width height ts)
              ((width : ℚ) / (height : ℚ))).2).fdiv 2,
       (aspectFit (rawCropX1 width height ts - rawCropX0 width height ts)
          (rawCropY1 width height ts - rawCropY0 width height ts)
          ((width : ℚ) / (height : ℚ))).1,
       (aspectFit (rawCropX1 width height ts - rawCropX0 width height ts)
          (rawCropY1 width height ts - rawCropY0 width height ts)
          ((width : ℚ) / (height : ℚ))).2⟩ := by
  unfold compute_static_crop at hpos ⊢
  by_cases h1 : rawCropX1 width height ts - rawCropX0 width height ts ≤ 0 ∨
      rawCropY1 width height ts - rawCropY0 width height ts ≤ 0
  · rw [if_pos h1] at hpos
    exact absurd hpos (by norm_num)
  · rw [if_neg h1] at hpos ⊢
    simp only at hpos ⊢
    by_cases h2 : (aspectFit (rawCropX1 width height ts - rawCropX0 width height ts)
        (rawCropY1 width height ts - rawCropY0 width height ts)
        ((width : ℚ) / (height : ℚ))).1 ≤ 0 ∨
        (aspectFit (rawCropX1 width height ts - rawCropX0 width height ts)
          (rawCropY1 width height ts - rawCropY0 width height ts)
          ((width : ℚ) / (height : ℚ))).2 ≤ 0
    · rw [if_pos h2] at hpos
      exact absurd hpos (by norm_num)
    · rw [if_neg h2] at hpos ⊢
      push_neg at h1 h2
      exact ⟨h1.1, h1.2, h2.1, h2.2, rfl⟩

theorem compute_valid_bbox_fst (width height : ℤ) (dx dy : ℚ) :
    (compute_valid_bbox width height dx dy).1 = max 0 (-dx) := rfl

theorem compute_valid_bbox_top (width height : ℤ) (dx dy : ℚ) :
    (compute_valid_bbox width height dx dy).2.1 = max 0 (-dy) := rfl

theorem compute_valid_bbox_right (width height : ℤ) (dx dy : ℚ) :
    (compute_valid_bbox width height dx dy).2.2.1
      = min (width : ℚ) ((width : ℚ) + -dx) := rfl

theorem compute_valid_bbox_bottom (width height : ℤ) (dx dy : ℚ) :
    (compute_valid_bbox width height dx dy).2.2.2
      = min (height : ℚ) ((height : ℚ) + -dy) := rfl

/-- C1: whenever `compute_static_crop` returns a non-empty rectangle, that
rectangle is contained in the valid bbox of every non-missing frame, and
the raw rectangle is the intersection of all those bboxes rounded inward
only (`ceil` on left/top, `floor` on right/bottom). -/
theorem claim_C1_full_coverage (width height : ℤ) (ts : List FrameTransform)
    (hw : 0 < width) (hh : 0 < height)
    (hpos : 0 < (compute_static_crop width height ts).w) :
    (∀ t ∈ ts, t.missing = false →
      (compute_valid_bbox width height t.dx t.dy).1
          ≤ ((compute_static_crop width height ts).x : ℚ) ∧
      (((compute_static_crop width height ts).x
          + (compute_static_crop width height ts).w : ℤ) : ℚ)
          ≤ (compute_valid_bbox width height t.dx t.dy).2.2.1 ∧
      (compute_valid_bbox width height t.dx t.dy).2.1
          ≤ ((compute_static_crop width height ts).y : ℚ) ∧
      (((compute_static_crop width height ts).y
          + (compute_static_crop width height ts).h : ℤ) : ℚ)
          ≤ (compute_valid_bbox width height t.dx t.dy).2.2.2) ∧
    rawCropX0 width height ts = ⌈(intersectBBoxes width height ts).left⌉ ∧
    rawCropY0 width height ts = ⌈(intersectBBoxes width height ts).top⌉ ∧
    rawCropX1 width height ts = ⌊(intersectBBoxes width height ts).right⌋ ∧
    rawCropY1 width height ts = ⌊(intersectBBoxes width height ts).bottom⌋ ∧
    (intersectBBoxes width height ts).left ≤ (rawCropX0 width height ts : ℚ) ∧
    (rawCropX1 width height ts : ℚ) ≤ (intersectBBoxes width height ts).right ∧
    (intersectBBoxes width height ts).top ≤ (rawCropY0 width height ts : ℚ) ∧
    (rawCropY1 width height ts : ℚ) ≤ (intersectBBoxes width height ts).bottom := by
  obtain ⟨hrw, hrh, hcw, hch, heq⟩ := compute_static_crop_of_pos width height ts hpos
  have haspect : 0 < (width : ℚ) / (height : ℚ) :=
    div_pos (by exact_mod_cast hw) (by exact_mod_cast hh)
  have hcw_le : (aspectFit (rawCropX1 width height ts - rawCropX0 width height ts)
      (rawCropY1 width height ts - rawCropY0 width height ts)
      ((width : ℚ) / (height : ℚ))).1
        ≤ rawCropX1 width height ts - rawCropX0 width height ts :=
    aspectFit_fst_le _ _ _ hrh
  have hch_le : (aspectFit (rawCropX1 width height ts - rawCropX0 width height ts)
      (rawCropY1 width height ts - rawCropY0 width height ts)
      ((width : ℚ) / (height : ℚ))).2
        ≤ rawCropY1 width height ts - rawCropY0 width height ts :=
    aspectFit_snd_le _ _ _ hrh haspect
  refine ⟨?_, rfl, rfl, rfl, rfl,
    Int.le_ceil _, Int.floor_le _, Int.le_ceil _, Int.floor_le _⟩
  intro t ht hm
  rw [heq]
  simp only [compute_valid_bbox_fst, compute_valid_bbox_top, compute_valid_bbox_right,
    compute_valid_bbox_bottom]
  have hxlow : rawCropX0 width height ts
      ≤ rawCropX0 width height ts +
        ((rawCropX1 width height ts - rawCropX0 width height ts) -
          (aspectFit (rawCropX1 width height ts - rawCropX0 width height ts)
            (rawCropY1 width height ts - rawCropY0 width height ts)
            ((width : ℚ) / (height : ℚ))).1).fdiv 2 := by
    have := fdiv_two_nonneg (n := (rawCropX1 width height ts - rawCropX0 width height ts) -
      (aspectFit (rawCropX1 width height ts - rawCropX0 width height ts)
        (rawCropY1 width height ts - rawCropY0 width height ts)
        ((width : ℚ) / (height : ℚ))).1) (by omega)
    omega
  have hxhigh : rawCropX0 width height ts +
        ((rawCropX1 width height ts - rawCropX0 width height ts) -
          (aspectFit (rawCropX1 width height ts - rawCropX0 width height ts)
            (rawCropY1 width height ts - rawCropY0 width height ts)
            ((width : ℚ) / (height : ℚ))).1).fdiv 2 +
        (aspectFit (rawCropX1 width height ts - rawCropX0 width height ts)
          (rawCropY1 width height ts - rawCropY0 width height ts)
          ((width : ℚ) / (height : ℚ))).1
      ≤ rawCropX1 width height ts := by
    have := fdiv_two_le_self (n := (rawCropX1 width height ts - rawCropX0 width height ts) -
      (aspectFit (rawCropX1 width height ts - rawCropX0 width height ts)
        (rawCropY1 width height ts - rawCropY0 width height ts)
        ((width : ℚ) / (height : ℚ))).1) (by omega)
    omega
  have hylow : rawCropY0 width height ts
      ≤ rawCropY0 width height ts +
        ((rawCropY1 width height ts - rawCropY0 width height ts) -
          (aspectFit (rawCropX1 width height ts - rawCropX0 width height ts)
            (rawCropY1 width height ts - rawCropY0 width height ts)
            ((width : ℚ) / (height : ℚ))).2).fdiv 2 := by
    have := fdiv_two_nonneg (n := (rawCropY1 width height ts - rawCropY0 width height ts) -
      (aspectFit (rawCropX1 width height ts - rawCropX0 width height ts)
        (rawCropY1 width height ts - rawCropY0 width height ts)
        ((width : ℚ) / (height : ℚ))).2) (by omega)
    omega
  have hyhigh : rawCropY0 width height ts +
        ((rawCropY1 width height ts - rawCropY0 width height ts) -
          (aspectFit (rawCropX1 width height ts - rawCropX0 width height ts)
            (rawCropY1 width height ts - rawCropY0 width height ts)
            ((width : ℚ) / (height : ℚ))).2).fdiv 2 +
        (aspectFit (rawCropX1 width height ts - rawCropX0 width height ts)
          (rawCropY1 width height ts - rawCropY0 width height ts)
          ((width : ℚ) / (height : ℚ))).2
      ≤ rawCropY1 width height ts := by
    have := fdiv_two_le_self (n := (rawCropY1 width height ts - rawCropY0 width height ts) -
      (aspectFit (rawCropX1 width height ts - rawCropX0 width height ts)
        (rawCropY1 width height ts - rawCropY0 width height ts)
        ((width : ℚ) / (height : ℚ))).2) (by omega)
    omega
  have hbleft : max 0 (-t.dx) ≤ (intersectBBoxes width height ts).left :=
    foldl_cropStep_left_of_mem width height ts _ t ht hm
  have hbtop : max 0 (-t.dy) ≤ (intersectBBoxes width height ts).top :=
    foldl_cropStep_top_of_mem width height ts _ t ht hm
  have hbright : (intersectBBoxes width height ts).right
      ≤ min (width : ℚ) ((width : ℚ) + -t.dx) :=
    foldl_cropStep_right_of_mem width height ts _ t ht hm
  have hbbottom : (intersectBBoxes width height ts).bottom
      ≤ min (height : ℚ) ((height : ℚ) + -t.dy) :=
    foldl_cropStep_bottom_of_mem width height ts _ t ht hm
  refine ⟨?_, ?_, ?_, ?_⟩
  · calc max 0 (-t.dx) ≤ (intersectBBoxes width height ts).left := hbleft
      _ ≤ ((rawCropX0 width height ts : ℤ) : ℚ) := Int.le_ceil _
      _ ≤ _ := by exact_mod_cast hxlow
  · calc (((rawCropX0 width height ts +
          ((rawCropX1 width height ts - rawCropX0 width height ts) -
            (aspectFit (rawCropX1 width height ts - rawCropX0 width height ts)
              (rawCropY1 width height ts - rawCropY0 width height ts)
              ((width : ℚ) / (height : ℚ))).1).fdiv 2) +
          (aspectFit (rawCropX1 width height ts - rawCropX0 width height ts)
            (rawCropY1 width height ts - rawCropY0 width height ts)
            ((width : ℚ) / (height : ℚ))).1 : ℤ) : ℚ)
        ≤ ((rawCropX1 width height ts : ℤ) : ℚ) := by exact_mod_cast hxhigh
      _ ≤ (intersectBBoxes width height ts).right := Int.floor_le _
      _ ≤ min (width : ℚ) ((width : ℚ) + -t.dx) := hbright
  · calc max 0 (-t.dy) ≤ (intersectBBoxes width height ts).top := hbtop
      _ ≤ ((rawCropY0 width height ts : ℤ) : ℚ) := Int.le_ceil _
      _ ≤ _ := by exact_mod_cast hylow
  · calc (((rawCropY0 width height ts +
          ((rawCropY1 width height ts - rawCropY0 width height ts) -
            (aspectFit (rawCropX1 width height ts - rawCropX0 width height ts)
              (rawCropY1 width height ts - rawCropY0 width height ts)
              ((width : ℚ) / (height : ℚ))).2).fdiv 2) +
          (aspectFit (rawCropX1 width height ts - rawCropX0 width height ts)
            (rawCropY1 width height ts - rawCropY0 width height ts)
            ((width : ℚ) / (height : ℚ))).2 : ℤ) : ℚ)
        ≤ ((rawCropY1 width height ts : ℤ) : ℚ) := by exact_mod_cast hyhigh
      _ ≤ (intersectBBoxes width height ts).bottom := Int.floor_le _
      _ ≤ min (height : ℚ) ((height : ℚ) + -t.dy) := hbbottom

/-- C1 witness: full coverage instantiated on the one-frame `dx = 10` path
over a 100x50 source. -/
theorem claim_C1_full_coverage_witness :
    (compute_valid_bbox 100 50 (10 : ℚ) 0).1
        ≤ ((compute_static_crop 100 50 shiftTenPath).x : ℚ) ∧
    (((compute_static_crop 100 50 shiftTenPath).x
        + (compute_static_crop 100 50 shiftTenPath).w : ℤ) : ℚ)
        ≤ (compute_valid_bbox 100 50 (10 : ℚ) 0).2.2.1 ∧
    (compute_valid_bbox 100 50 (10 : ℚ) 0).2.1
        ≤ ((compute_static_crop 100 50 shiftTenPath).y : ℚ) ∧
    (((compute_static_crop 100 50 shiftTenPath).y
        + (compute_static_crop 100 50 shiftTenPath).h : ℤ) : ℚ)
        ≤ (compute_valid_bbox 100 50 (10 : ℚ) 0).2.2.2 :=
  (claim_C1_full_coverage 100 50 shiftTenPath (by decide) (by decide)
      (by with_unfolding_all decide)).1
    ⟨10, 0, 0, 0, false, false⟩ (by decide) rfl

/-- C5: every non-empty rectangle returned by `compute_static_crop` lies in
`[0, width] x [0, height]`, has positive width and height, and its
width/height ratio differs from the source aspect ratio by less than
`(1 + aspect) / crop_h` (the inherent rounding tolerance of the
floor-based aspect fit). -/
theorem claim_C5_crop_invariant (width height : ℤ) (ts : List FrameTransform)
    (hw : 0 < width) (hh : 0 < height)
    (hpos : 0 < (compute_static_crop width height ts).w) :
    0 ≤ (compute_static_crop width height ts).x ∧
    0 ≤ (compute_static_crop width height ts).y ∧
    (compute_static_crop width height ts).x + (compute_static_crop width height ts).w
        ≤ width ∧
    (compute_static_crop width height ts).y + (compute_static_crop width height ts).h
        ≤ height ∧
    0 < (compute_static_crop width height ts).w ∧
    0 < (compute_static_crop width height ts).h ∧
    |((compute_static_crop width height ts).w : ℚ)
        / ((compute_static_crop width height ts).h : ℚ)
        - (width : ℚ) / (height : ℚ)|
      < (1 + (width : ℚ) / (height : ℚ))
        / ((compute_static_crop width height ts).h : ℚ) := by
  obtain ⟨hrw, hrh, hcw, hch, heq⟩ := compute_static_crop_of_pos width height ts hpos
  have haspect : 0 < (width : ℚ) / (height : ℚ) :=
    div_pos (by exact_mod_cast hw) (by exact_mod_cast hh)
  have hcw_le : (aspectFit (rawCropX1 width height ts - rawCropX0 width height ts)
      (rawCropY1 width height ts - rawCropY0 width height ts)
      ((width : ℚ) / (height : ℚ))).1
        ≤ rawCropX1 width height ts - rawCropX0 width height ts :=
    aspectFit_fst_le _ _ _ hrh
  have hch_le : (aspectFit (rawCropX1 width height ts - rawCropX0 width height ts)
      (rawCropY1 width height ts - rawCropY0 width height ts)
      ((width : ℚ) / (height : ℚ))).2
        ≤ rawCropY1 width height ts - rawCropY0 width height ts :=
    aspectFit_snd_le _ _ _ hrh haspect
  have hfx0 : 0 ≤ ((rawCropX1 width height ts - rawCropX0 width height ts) -
      (aspectFit (rawCropX1 width height ts - rawCropX0 width height ts)
        (rawCropY1 width height ts - rawCropY0 width height ts)
        ((width : ℚ) / (height : ℚ))).1).fdiv 2 :=
    fdiv_two_nonneg (by omega)
  have hfx1 : ((rawCropX1 width height ts - rawCropX0 width height ts) -
      (aspectFit (rawCropX1 width height ts - rawCropX0 width height ts)
        (rawCropY1 width height ts - rawCropY0 width height ts)
        ((width : ℚ) / (height : ℚ))).1).fdiv 2
        ≤ (rawCropX1 width height ts - rawCropX0 width height ts) -
          (aspectFit (rawCropX1 width height ts - rawCropX0 width height ts)
            (rawCropY1 width height ts - rawCropY0 width height ts)
            ((width : ℚ) / (height : ℚ))).1 :=
    fdiv_two_le_self (by omega)
  have hfy0 : 0 ≤ ((rawCropY1 width height ts - rawCropY0 width height ts) -
      (aspectFit (rawCropX1 width height ts - rawCropX0 width height ts)
        (rawCropY1 width height ts - rawCropY0 width height ts)
        ((width : ℚ) / (height : ℚ))).2).fdiv 2 :=
    fdiv_two_nonneg (by omega)
  have hfy1 : ((rawCropY1 width height ts - rawCropY0 width height ts) -
      (aspectFit (rawCropX1 width height ts - rawCropX0 width height ts)
        (rawCropY1 width height ts - rawCropY0 width height ts)
        ((width : ℚ) / (height : ℚ))).2).fdiv 2
        ≤ (rawCropY1 width height ts - rawCropY0 width height ts) -
          (aspectFit (rawCropX1 width height ts - rawCropX0 width height ts)
            (rawCropY1 width height ts - rawCropY0 width height ts)
            ((width : ℚ) / (height : ℚ))).2 :=
    fdiv_two_le_self (by omega)
  have hbb_left : (0 : ℚ) ≤ (intersectBBoxes width height ts).left :=
    foldl_cropStep_left_mono width height ts ⟨0, 0, (width : ℚ), (height : ℚ)⟩
  have hbb_top : (0 : ℚ) ≤ (intersectBBoxes width height ts).top :=
    foldl_cropStep_top_mono width height ts ⟨0, 0, (width : ℚ), (height : ℚ)⟩
  have hbb_right : (intersectBBoxes width height ts).right ≤ (width : ℚ) :=
    foldl_cropStep_right_anti width height ts ⟨0, 0, (width : ℚ), (height : ℚ)⟩
  have hbb_bottom : (intersectBBoxes width height ts).bottom ≤ (height : ℚ) :=
    foldl_cropStep_bottom_anti width height ts ⟨0, 0, (width : ℚ), (height : ℚ)⟩
  have hX0 : 0 ≤ rawCropX0 width height ts := Int.ceil_nonneg hbb_left
  have hY0 : 0 ≤ rawCropY0 width height ts := Int.ceil_nonneg hbb_top
  have hX1 : rawCropX1 width height ts ≤ width :=
    (Int.floor_le_floor hbb_right).trans_eq (Int.floor_intCast width)
  have hY1 : rawCropY1 width height ts ≤ height :=
    (Int.floor_le_floor hbb_bottom).trans_eq (Int.floor_intCast height)
  rw [heq]
  dsimp only
  refine ⟨by omega, by omega, by omega, by omega, hcw, hch, ?_⟩
  exact aspectFit_ratio_close _ _ _ hrh haspect hch

/-- C5 witness: the invariant instantiated on the one-frame `dx = 10` path
over a 100x50 source. -/
theorem claim_C5_crop_invariant_witness :
    0 ≤ (compute_static_crop 100 50 shiftTenPath).x ∧
    0 ≤ (compute_static_crop 100 50 shiftTenPath).y ∧
    (compute_static_crop 100 50 shiftTenPath).x + (compute_static_crop 100 50 shiftTenPath).w
        ≤ 100 ∧
    (compute_static_crop 100 50 shiftTenPath).y + (compute_static_crop 100 50 shiftTenPath).h
        ≤ 50 ∧
    0 < (compute_static_crop 100 50 shiftTenPath).w ∧
    0 < (compute_static_crop 100 50 shiftTenPath).h ∧
    |((compute_static_crop 100 50 shiftTenPath).w : ℚ)
        / ((compute_static_crop 100 50 shiftTenPath).h : ℚ) - (100 : ℚ) / (50 : ℚ)|
      < (1 + (100 : ℚ) / (50 : ℚ)) / ((compute_static_crop 100 50 shiftTenPath).h : ℚ) :=
  claim_C5_crop_invariant 100 50 shiftTenPath (by decide) (by decide)
    (by with_unfolding_all decide)

/-- C8: the fill-budget evaluation is reached only when crop validation has
failed AND the border mode is `crop_prefer_fill_fallback`; with any other
border mode a crop failure immediately writes the "crop infeasible" report
and raises, and the fill planner is never invoked. -/
theorem claim_C8_fill_fallback_gating (sqrtFn : ℚ → ℚ) (width height : ℤ)
    (ts : List FrameTransform) (rej : RejectionSettings) (cfg : DecisionSettings)
    (ext : ExternalCalls) :
    ((mainDecision sqrtFn width height ts rej cfg ext).fillBudgetInvoked = true →
      (motion_reliability_ok width height ts rej).1 = true ∧
      (crop_constraints_ok width height (compute_static_crop width height ts)
        cfg.min_area_ratio cfg.effective_min_height_px cfg.center_safe_margin).1 = false ∧
      cfg.border_mode = "crop_prefer_fill_fallback") ∧
    ((motion_reliability_ok width height ts rej).1 = true →
      (crop_constraints_ok width height (compute_static_crop width height ts)
        cfg.min_area_ratio cfg.effective_min_height_px cfg.center_safe_margin).1 = false →
      cfg.border_mode ≠ "crop_prefer_fill_fallback" →
      (mainDecision sqrtFn width height ts rej cfg ext).reports
          = [⟨"crop infeasible", false⟩] ∧
      (mainDecision sqrtFn width height ts rej cfg ext).outcome
          = .raised "global stabilization unsuitable for this material (crop infeasible)" ∧
      (mainDecision sqrtFn width height ts rej cfg ext).fillBudgetInvoked = false) := by
  constructor
  · intro hfill
    by_cases hmot : (motion_reliability_ok width height ts rej).1 = true
    · by_cases hcrop : (crop_constraints_ok width height (compute_static_crop width height ts)
          cfg.min_area_ratio cfg.effective_min_height_px cfg.center_safe_margin).1 = true
      · exfalso
        rcases hrender : ext.render with e | u
        all_goals
          simp only [mainDecision, hmot, hcrop, Bool.not_true, Bool.false_eq_true, if_false,
            hrender] at hfill
      · by_cases hmode : cfg.border_mode = "crop_prefer_fill_fallback"
        · exact ⟨hmot, Bool.eq_false_iff.mpr hcrop, hmode⟩
        · exfalso
          simp only [mainDecision, hmot, Bool.not_true, Bool.false_eq_true, if_false,
            Bool.eq_false_iff.mpr hcrop, Bool.not_false, if_true, if_pos hmode] at hfill
    · exfalso
      simp only [mainDecision, Bool.eq_false_iff.mpr hmot, Bool.not_false, if_true] at hfill
      exact Bool.noConfusion hfill
  · intro hmot hcrop hmode
    simp only [mainDecision, hmot, Bool.not_true, Bool.false_eq_true, if_false, hcrop,
      Bool.not_false, if_true, if_pos hmode]
    exact ⟨trivial, trivial, trivial⟩

/-- C8 witness: motion passes, the crop fails `min_area_ratio = 1`, border
mode `crop_only` — immediate "crop infeasible" report and raise, fill
planner untouched. -/
theorem claim_C8_fill_fallback_gating_witness :
    (mainDecision (fun q => q) 100 100 outlierPath witnessRejection witnessSettings
        witnessExternal).reports = [⟨"crop infeasible", false⟩] ∧
    (mainDecision (fun q => q) 100 100 outlierPath witnessRejection witnessSettings
        witnessExternal).outcome
      = .raised "global stabilization unsuitable for this material (crop infeasible)" ∧
    (mainDecision (fun q => q) 100 100 outlierPath witnessRejection witnessSettings
        witnessExternal).fillBudgetInvoked = false :=
  (claim_C8_fill_fallback_gating (fun q => q) 100 100 outlierPath witnessRejection
      witnessSettings witnessExternal).2
    (by with_unfolding_all decide) (by with_unfolding_all decide)
    (by with_unfolding_all decide)

/-- C7 counterexample: on an empty motion path the unreliable-motion
outcome is raised as a `RuntimeError` (the run aborts with non-zero exit),
not returned as a result value — though its report is written first. -/
theorem claim_C7_counterexample :
    (mainDecision (fun q => q) 100 50 [] witnessRejection witnessSettings
        witnessExternal).outcome = DecisionOutcome.raised "unreliable_motion_missing" ∧
    (mainDecision (fun q => q) 100 50 [] witnessRejection witnessSettings
        witnessExternal).reports = [⟨"unreliable_motion_missing", false⟩] := by
  constructor
  · with_unfolding_all rfl
  · with_unfolding_all rfl

/-- C7 (amended): each of the three expected failure outcomes (unreliable
motion, crop infeasible — including the fill-crop variant — and fill budget
exceeded) writes its structured report and then aborts by raising a
`RuntimeError`; a normal return happens only after writing the success
report; external-call failures raise without writing a report, so every
written failure report is followed by a raise. -/
theorem claim_C7_expected_outcomes (sqrtFn : ℚ → ℚ) (width height : ℤ)
    (ts : List FrameTransform) (rej : RejectionSettings) (cfg : DecisionSettings)
    (ext : ExternalCalls) :
    ((motion_reliability_ok width height ts rej).1 = false →
      (mainDecision sqrtFn width height ts rej cfg ext).reports
          = [⟨motionFailureCode (motion_reliability_ok width height ts rej).2.1, false⟩] ∧
      (mainDecision sqrtFn width height ts rej cfg ext).outcome
          = .raised (motionFailureCode (motion_reliability_ok width height ts rej).2.1)) ∧
    ((motion_reliability_ok width height ts rej).1 = true →
      (crop_constraints_ok width height (compute_static_crop width height ts)
        cfg.min_area_ratio cfg.effective_min_height_px cfg.center_safe_margin).1 = false →
      ((cfg.border_mode ≠ "crop_prefer_fill_fallback" →
        (mainDecision sqrtFn width height ts rej cfg ext).reports
            = [⟨"crop infeasible", false⟩] ∧
        (mainDecision sqrtFn width height ts rej cfg ext).outcome
            = .raised "global stabilization unsuitable for this material (crop infeasible)") ∧
       (cfg.border_mode = "crop_prefer_fill_fallback" →
        (fallbackFillCropOk sqrtFn width height ts cfg = false →
          (mainDecision sqrtFn width height ts rej cfg ext).reports
              = [⟨"fill crop infeasible", false⟩] ∧
          (mainDecision sqrtFn width height ts rej cfg ext).outcome
              = .raised
                "global stabilization unsuitable for this material (fill crop infeasible)") ∧
        (fallbackFillCropOk sqrtFn width height ts cfg = true →
          (compute_fill_budget ts width height (fallbackFillCrop sqrtFn width height ts cfg)
            cfg.fill_max_area_ratio cfg.fill_max_frames_ratio
            cfg.fill_max_consecutive_frames).passFlag = false →
          (mainDecision sqrtFn width height ts rej cfg ext).reports
              = [⟨"fill budget exceeded", false⟩] ∧
          (mainDecision sqrtFn width height ts rej cfg ext).outcome
              = .raised
                "global stabilization unsuitable for this material (fill budget exceeded)")))) ∧
    ((mainDecision sqrtFn width height ts rej cfg ext).outcome = .returned →
      (mainDecision sqrtFn width height ts rej cfg ext).reports = [⟨"ok", true⟩]) ∧
    (∀ r ∈ (mainDecision sqrtFn width height ts rej cfg ext).reports, r.pass = false →
      ∃ msg, (mainDecision sqrtFn width height ts rej cfg ext).outcome = .raised msg) := by
  refine ⟨?_, ?_, ?_, ?_⟩
  · intro hmot
    simp only [mainDecision, hmot, Bool.not_false, if_true]
    exact ⟨trivial, trivial⟩
  · intro hmot hcrop
    constructor
    · intro hmode
      simp only [mainDecision, hmot, Bool.not_true, Bool.false_eq_true, if_false, hcrop,
        Bool.not_false, if_true, if_pos hmode]
      exact ⟨trivial, trivial⟩
    · intro hmode
      constructor
      · intro hfc
        simp only [mainDecision, hmot, Bool.not_true, Bool.false_eq_true, if_false, hcrop,
          Bool.not_false, if_true, if_neg (not_not_intro hmode), hfc]
        exact ⟨trivial, trivial⟩
      · intro hfc hpass
        simp only [mainDecision, hmot, Bool.not_true, Bool.false_eq_true, if_false, hcrop,
          Bool.not_false, if_true, if_neg (not_not_intro hmode), hfc, hpass, Bool.not_true]
        exact ⟨trivial, trivial⟩
  · intro hret
    by_cases hmot : (motion_reliability_ok width height ts rej).1 = true
    · by_cases hcrop : (crop_constraints_ok width height (compute_static_crop width height ts)
          cfg.min_area_ratio cfg.effective_min_height_px cfg.center_safe_margin).1 = true
      · rcases hrender : ext.render with e | u
        · exfalso
          simp only [mainDecision, hmot, hcrop, Bool.not_true, Bool.false_eq_true, if_false,
            hrender] at hret
          exact DecisionOutcome.noConfusion hret
        · simp only [mainDecision, hmot, hcrop, Bool.not_true, Bool.false_eq_true, if_false,
            hrender]
      · by_cases hmode : cfg.border_mode = "crop_prefer_fill_fallback"
        · by_cases hfc : fallbackFillCropOk sqrtFn width height ts cfg = true
          · by_cases hpass : (compute_fill_budget ts width height
                (fallbackFillCrop sqrtFn width height ts cfg) cfg.fill_max_area_ratio
                cfg.fill_max_frames_ratio cfg.fill_max_consecutive_frames).passFlag = true
            · rcases hcolor : ext.color_sample with e | c
              · exfalso
                simp only [mainDecision, hmot, Bool.not_true, Bool.false_eq_true, if_false,
                  Bool.eq_false_iff.mpr hcrop, Bool.not_false, if_true,
                  if_neg (not_not_intro hmode), hfc, hpass, hcolor] at hret
                exact DecisionOutcome.noConfusion hret
              · rcases hrf : ext.render_fill with e | u
                · exfalso
                  simp only [mainDecision, hmot, Bool.not_true, Bool.false_eq_true, if_false,
                    Bool.eq_false_iff.mpr hcrop, Bool.not_false, if_true,
                    if_neg (not_not_intro hmode), hfc, hpass, hcolor, hrf] at hret
                  exact DecisionOutcome.noConfusion hret
                · simp only [mainDecision, hmot, Bool.not_true, Bool.false_eq_true, if_false,
                    Bool.eq_false_iff.mpr hcrop, Bool.not_false, if_true,
                    if_neg (not_not_intro hmode), hfc, hpass, hcolor, hrf]
            · exfalso
              simp only [mainDecision, hmot, Bool.not_true, Bool.false_eq_true, if_false,
                Bool.eq_false_iff.mpr hcrop, Bool.not_false, if_true,
                if_neg (not_not_intro hmode), hfc, Bool.eq_false_iff.mpr hpass] at hret
              exact DecisionOutcome.noConfusion hret
          · exfalso
            simp only [mainDecision, hmot, Bool.not_true, Bool.false_eq_true, if_false,
              Bool.eq_false_iff.mpr hcrop, Bool.not_false, if_true,
              if_neg (not_not_intro hmode), Bool.eq_false_iff.mpr hfc] at hret
            exact DecisionOutcome.noConfusion hret
        · exfalso
          simp only [mainDecision, hmot, Bool.not_true, Bool.false_eq_true, if_false,
            Bool.eq_false_iff.mpr hcrop, Bool.not_false, if_true, if_pos hmode] at hret
          exact DecisionOutcome.noConfusion hret
    · exfalso
      simp only [mainDecision, Bool.eq_false_iff.mpr hmot, Bool.not_false, if_true] at hret
      exact DecisionOutcome.noConfusion hret
  · intro r hr hrpass
    by_cases hmot : (motion_reliability_ok width height ts rej).1 = true
    · by_cases hcrop : (crop_constraints_ok width height (compute_static_crop width height ts)
          cfg.min_area_ratio cfg.effective_min_height_px cfg.center_safe_margin).1 = true
      · rcases hrender : ext.render with e | u
        · simp only [mainDecision, hmot, hcrop, Bool.not_true, Bool.false_eq_true, if_false,
            hrender] at hr ⊢
          exact absurd hr (List.not_mem_nil r)
        · simp only [mainDecision, hmot, hcrop, Bool.not_true, Bool.false_eq_true, if_false,
            hrender] at hr hrpass ⊢
          rw [List.mem_singleton] at hr
          rw [hr] at hrpass
          exact Bool.noConfusion hrpass
      · by_cases hmode : cfg.border_mode = "crop_prefer_fill_fallback"
        · by_cases hfc : fallbackFillCropOk sqrtFn width height ts cfg = true
          · by_cases hpass : (compute_fill_budget ts width height
                (fallbackFillCrop sqrtFn width height ts cfg) cfg.fill_max_area_ratio
                cfg.fill_max_frames_ratio cfg.fill_max_consecutive_frames).passFlag = true
            · rcases hcolor : ext.color_sample with e | c
              · simp only [mainDecision, hmot, Bool.not_true, Bool.false_eq_true, if_false,
                  Bool.eq_false_iff.mpr hcrop, Bool.not_false, if_true,
                  if_neg (not_not_intro hmode), hfc, hpass, hcolor] at hr
                exact absurd hr (List.not_mem_nil r)
              · rcases hrf : ext.render_fill with e | u
                · simp only [mainDecision, hmot, Bool.not_true, Bool.false_eq_true, if_false,
                    Bool.eq_false_iff.mpr hcrop, Bool.not_false, if_true,
                    if_neg (not_not_intro hmode), hfc, hpass, hcolor, hrf] at hr
                  exact absurd hr (List.not_mem_nil r)
                · simp only [mainDecision, hmot, Bool.not_true, Bool.false_eq_true, if_false,
                    Bool.eq_false_iff.mpr hcrop, Bool.not_false, if_true,
                    if_neg (not_not_intro hmode), hfc, hpass, hcolor, hrf] at hr hrpass
                  rw [List.mem_singleton] at hr
                  rw [hr] at hrpass
                  exact Bool.noConfusion hrpass
            · refine ⟨"global stabilization unsuitable for this material (fill budget exceeded)",
                ?_⟩
              simp only [mainDecision, hmot, Bool.not_true, Bool.false_eq_true, if_false,
                Bool.eq_false_iff.mpr hcrop, Bool.not_false, if_true,
                if_neg (not_not_intro hmode), hfc, Bool.eq_false_iff.mpr hpass]
          · refine ⟨"global stabilization unsuitable for this material (fill crop infeasible)",
              ?_⟩
            simp only [mainDecision, hmot, Bool.not_true, Bool.false_eq_true, if_false,
              Bool.eq_false_iff.mpr hcrop, Bool.not_false, if_true,
              if_neg (not_not_intro hmode), Bool.eq_false_iff.mpr hfc]
        · refine ⟨"global stabilization unsuitable for this material (crop infeasible)", ?_⟩
          simp only [mainDecision, hmot, Bool.not_true, Bool.false_eq_true, if_false,
            Bool.eq_false_iff.mpr hcrop, Bool.not_false, if_true, if_pos hmode]
    · refine ⟨motionFailureCode (motion_reliability_ok width height ts rej).2.1, ?_⟩
      simp only [mainDecision, Bool.eq_false_iff.mpr hmot, Bool.not_false, if_true]

/-- C7 witness: the amended statement instantiated on the empty path, where
the unreliable-motion report is written and then raised. -/
theorem claim_C7_expected_outcomes_witness :
    (mainDecision (fun q => q) 100 50 [] witnessRejection witnessSettings
        witnessExternal).reports
        = [⟨motionFailureCode
            (motion_reliability_ok 100 50 [] witnessRejection).2.1, false⟩] ∧
    (mainDecision (fun q => q) 100 50 [] witnessRejection witnessSettings
        witnessExternal).outcome
        = .raised (motionFailureCode
            (motion_reliability_ok 100 50 [] witnessRejection).2.1) :=
  (claim_C7_expected_outcomes (fun q => q) 100 50 [] witnessRejection witnessSettings
      witnessExternal).1 (by with_unfolding_all rfl)

/-- C3: in budgeted mode each metric is rejected iff its bad-frame ratio
exceeds `outlier_max_frames_ratio` or its longest bad run exceeds
`outlier_max_consecutive_frames`; on a path where exactly 1 of 4 usable
frames exceeds the angle threshold with `1/4 ≤ outlier_max_frames_ratio`
and run budget `1`, classification passes, and with
`outlier_max_frames_ratio = 0` it fails. -/
theorem claim_C3_budgeted_rejection :
    (∀ (width height : ℤ) (ts : List FrameTransform) (rej : RejectionSettings),
      rej.mode ≠ "max" → (validFrames ts).length ≠ 0 →
      (("unreliable_motion_angle" ∈ (motion_reliability_ok width height ts rej).2.1 ↔
        ((angleBudget ts rej).bad_frames_ratio > rej.outlier_max_frames_ratio ∨
         ((angleBudget ts rej).max_consecutive_bad_frames : ℤ)
           > rej.outlier_max_consecutive_frames)) ∧
       ("unreliable_motion_zoom" ∈ (motion_reliability_ok width height ts rej).2.1 ↔
        ((zoomBudget ts rej).bad_frames_ratio > rej.outlier_max_frames_ratio ∨
         ((zoomBudget ts rej).max_consecutive_bad_frames : ℤ)
           > rej.outlier_max_consecutive_frames)) ∧
       ("unreliable_motion_scale" ∈ (motion_reliability_ok width height ts rej).2.1 ↔
        ((scaleBudget ts rej).bad_frames_ratio > rej.outlier_max_frames_ratio ∨
         ((scaleBudget ts rej).max_consecutive_bad_frames : ℤ)
           > rej.outlier_max_consecutive_frames)))) ∧
    (motion_reliability_ok 100 50 outlierPath witnessRejection).1 = true ∧
    (motion_reliability_ok 100 50 outlierPath
        { witnessRejection with outlier_max_frames_ratio := 0 }).1 = false := by
  refine ⟨?_, by with_unfolding_all rfl, by with_unfolding_all rfl⟩
  intro width height ts rej hmode hlen
  have hres : (motion_reliability_ok width height ts rej).2.1
      = motionReasons width height ts rej := by
    unfold motion_reliability_ok
    rw [if_neg hlen]
  rw [hres]
  unfold motionReasons
  rw [if_neg hmode]
  refine ⟨?_, ?_, ?_⟩ <;>
    split_ifs <;> simp_all [List.mem_append, List.mem_singleton]

/-- C3 witness: the per-metric budgeted iff instantiated on the
angle-outlier path. -/
theorem claim_C3_budgeted_rejection_witness :
    ("unreliable_motion_angle"
        ∈ (motion_reliability_ok 100 50 outlierPath witnessRejection).2.1 ↔
      ((angleBudget outlierPath witnessRejection).bad_frames_ratio
          > witnessRejection.outlier_max_frames_ratio ∨
       ((angleBudget outlierPath witnessRejection).max_consecutive_bad_frames : ℤ)
          > witnessRejection.outlier_max_consecutive_frames)) ∧
    ("unreliable_motion_zoom"
        ∈ (motion_reliability_ok 100 50 outlierPath witnessRejection).2.1 ↔
      ((zoomBudget outlierPath witnessRejection).bad_frames_ratio
          > witnessRejection.outlier_max_frames_ratio ∨
       ((zoomBudget outlierPath witnessRejection).max_consecutive_bad_frames : ℤ)
          > witnessRejection.outlier_max_consecutive_frames)) ∧
    ("unreliable_motion_scale"
        ∈ (motion_reliability_ok 100 50 outlierPath witnessRejection).2.1 ↔
      ((scaleBudget outlierPath witnessRejection).bad_frames_ratio
          > witnessRejection.outlier_max_frames_ratio ∨
       ((scaleBudget outlierPath witnessRejection).max_consecutive_bad_frames : ℤ)
          > witnessRejection.outlier_max_consecutive_frames)) :=
  claim_C3_budgeted_rejection.1 100 50 outlierPath witnessRejection
    (by with_unfolding_all decide) (by with_unfolding_all decide)

end StabilizeBuilding
